import Mathlib

/-! Spleeb keyboard: configuration record, persistence, split sync and drag-scroll.

A shallow embedding of `keyboards/spleeb/spleeb.c`.

The C object `spleeb_config_t` is a 4-byte union of `uint32_t raw` with a packed
bit-field struct.  It is embedded as its `raw` word (a natural number below `2^32`);
the struct members are bit slices of that word, laid out as GCC lays out the packed
struct on the little-endian target:

* `pointer_default_dpi : 4`  bits 0..3
* `pointer_sniping_dpi : 2`  bits 4..5
* `enc_modes[0]`             bits 8..15  (byte 1)
* `enc_modes[1]`             bits 16..23 (byte 2)
* `is_dragscroll_enabled : 1` bit 24
* `is_sniping_enabled : 1`    bit 25

Bits 6, 7 and 26..31 are padding.  Member reads are slice extractions, member writes
replace the slice and leave every other bit of the word alone.
-/

namespace Spleeb

/-! ## The packed configuration record -/

/-- The union `spleeb_config_t`: four bytes, seen through `raw`. -/
@[ext] structure spleeb_config_t where
  raw : Nat
  raw_lt : raw < 4294967296
deriving DecidableEq

/-- Store a value into a `uint32_t` object (reduction modulo `2^32`). -/
def mk32 (n : Nat) : spleeb_config_t := ⟨n % 4294967296, Nat.mod_lt _ (by decide)⟩

/-- The initialiser `{0}`. -/
def zero_config : spleeb_config_t := mk32 0

instance : Inhabited spleeb_config_t := ⟨zero_config⟩

/-- Read of `config->pointer_default_dpi`. -/
def pointer_default_dpi (c : spleeb_config_t) : Nat := c.raw % 16

/-- Read of `config->pointer_sniping_dpi`. -/
def pointer_sniping_dpi (c : spleeb_config_t) : Nat := c.raw / 16 % 4

/-- Read of `config->enc_modes[i]`; the array has the two elements `0` and `1`. -/
def enc_modes (c : spleeb_config_t) (i : Nat) : Nat :=
  if i = 0 then c.raw / 256 % 256 else c.raw / 65536 % 256

/-- Read of `config->is_dragscroll_enabled`. -/
def is_dragscroll_enabled (c : spleeb_config_t) : Bool := c.raw / 16777216 % 2 == 1

/-- Read of `config->is_sniping_enabled`. -/
def is_sniping_enabled (c : spleeb_config_t) : Bool := c.raw / 33554432 % 2 == 1

/-- Assignment `config->pointer_default_dpi = v`: the value is converted to the
4-bit unsigned field, i.e. reduced modulo 16. -/
def set_pointer_default_dpi (c : spleeb_config_t) (v : Int) : spleeb_config_t :=
  mk32 (c.raw - c.raw % 16 + (v % 16).toNat)

/-- Assignment `config->pointer_sniping_dpi = v`: reduced modulo 4 into bits 4..5. -/
def set_pointer_sniping_dpi (c : spleeb_config_t) (v : Int) : spleeb_config_t :=
  mk32 (c.raw - c.raw / 16 % 4 * 16 + (v % 4).toNat * 16)

/-- Assignment `config->enc_modes[i] = v`: reduced modulo 256 into byte `1 + i`. -/
def set_enc_modes (c : spleeb_config_t) (i : Nat) (v : Int) : spleeb_config_t :=
  if i = 0 then mk32 (c.raw - c.raw / 256 % 256 * 256 + (v % 256).toNat * 256)
  else mk32 (c.raw - c.raw / 65536 % 256 * 65536 + (v % 256).toNat * 65536)

/-- Assignment `config->is_dragscroll_enabled = b`. -/
def set_is_dragscroll_enabled (c : spleeb_config_t) (b : Bool) : spleeb_config_t :=
  mk32 (c.raw - c.raw / 16777216 % 2 * 16777216 + (if b then 1 else 0) * 16777216)

/-- Assignment `config->is_sniping_enabled = b`. -/
def set_is_sniping_enabled (c : spleeb_config_t) (b : Bool) : spleeb_config_t :=
  mk32 (c.raw - c.raw / 33554432 % 2 * 33554432 + (if b then 1 else 0) * 33554432)

/-- Member-by-member initialisation of a `spleeb_config_t` object whose bytes were
`c0` before: every named member is assigned in turn. -/
def pack (c0 : spleeb_config_t) (dpi snipe enc0 enc1 : Nat) (drag snp : Bool) :
    spleeb_config_t :=
  set_is_sniping_enabled
    (set_is_dragscroll_enabled
      (set_enc_modes
        (set_enc_modes
          (set_pointer_sniping_dpi (set_pointer_default_dpi c0 dpi) snipe)
          0 enc0)
        1 enc1)
      drag)
    snp

/-- Every bit of a `spleeb_config_t` object, member by member: the six named members
and the two runs of padding bits (bits 6..7 and bits 26..31). -/
structure Fields where
  dpi : Nat
  snipe : Nat
  pad_lo : Nat
  enc0 : Nat
  enc1 : Nat
  drag : Bool
  snp : Bool
  pad_hi : Nat
deriving DecidableEq

/-- Reading every member of the object. -/
def unpack (c : spleeb_config_t) : Fields :=
  { dpi := pointer_default_dpi c
    snipe := pointer_sniping_dpi c
    pad_lo := c.raw / 64 % 4
    enc0 := enc_modes c 0
    enc1 := enc_modes c 1
    drag := is_dragscroll_enabled c
    snp := is_sniping_enabled c
    pad_hi := c.raw / 67108864 }

/-! ## Global state -/

/-- The file-scope and function-scope statics of `spleeb.c`, with the pieces of the
framework the code talks to. -/
structure State where
  /-- The global `static spleeb_config_t g_spleeb_config = {0}`. -/
  g_spleeb_config : spleeb_config_t := zero_config
  /-- Modelled from the spec: the keyboard-level EEPROM slot behind
  `eeconfig_read_kb` / `eeconfig_update_kb` ("one fixed-size record keyed implicitly;
  read returns previously-written bytes"). -/
  eeprom : Nat := 0
  /-- Local `static spleeb_config_t last_spleeb_config = {0}` of `housekeeping_task_kb`. -/
  last_spleeb_config : spleeb_config_t := zero_config
  /-- Local `static uint32_t last_sync = 0` of `housekeeping_task_kb`. -/
  last_sync : Nat := 0
  /-- Local `static int16_t scroll_x = 0` of `pointing_device_task_spleeb`. -/
  scroll_x : Int := 0
  /-- Local `static int16_t scroll_y = 0` of `pointing_device_task_spleeb`. -/
  scroll_y : Int := 0
  /-- The CPI last handed to `pointing_device_set_cpi`. -/
  cpi : Nat := 0
  /-- The setting last handed to `cirque_pinnacle_enable_cursor_glide`. -/
  cursor_glide : Bool := false
  /-- Keycodes handed to `tap_code`, most recent first. -/
  taps : List Nat := []
deriving DecidableEq

/-- Modelled from the spec: `eeconfig_update_kb(val)` stores the 32-bit word in the
keyboard's EEPROM slot. -/
def eeconfig_update_kb (val : Nat) (s : State) : State :=
  { s with eeprom := val % 4294967296 }

/-- Modelled from the spec: `eeconfig_read_kb()` returns the word last stored. -/
def eeconfig_read_kb (s : State) : Nat := s.eeprom % 4294967296

/-- C source:
```
config->raw                   = eeconfig_read_kb();
config->is_dragscroll_enabled = false;
config->is_sniping_enabled    = false;
```
The result is the new content of `*config`. -/
def read_spleeb_config_from_eeprom (s : State) : spleeb_config_t :=
  let config := mk32 (eeconfig_read_kb s)
  let config := set_is_dragscroll_enabled config false
  set_is_sniping_enabled config false

/-- C source: `eeconfig_update_kb(config->raw);` -/
def write_spleeb_config_to_eeprom (config : spleeb_config_t) (s : State) : State :=
  eeconfig_update_kb config.raw s


/-! ## Object representation, `memcpy` and `memcmp` -/

/-- The four bytes of the object, lowest address first (little-endian `raw`). -/
def bytes_of (c : spleeb_config_t) : List Nat :=
  [c.raw % 256, c.raw / 256 % 256, c.raw / 65536 % 256, c.raw / 16777216 % 256]

/-- The object whose four bytes are the first four bytes of `b`. -/
def of_bytes (b : List Nat) : spleeb_config_t :=
  mk32 (b.getD 0 0 % 256 + 256 * (b.getD 1 0 % 256) + 65536 * (b.getD 2 0 % 256)
    + 16777216 * (b.getD 3 0 % 256))

/-- The size `sizeof(g_spleeb_config)`. -/
def sizeof_spleeb_config : Nat := (bytes_of zero_config).length

/-- Library `memcpy(dst, src, n)` on byte sequences: the first `n` bytes of `dst` are
replaced by the first `n` bytes of `src`. -/
def memcpy (dst src : List Nat) (n : Nat) : List Nat := src.take n ++ dst.drop n

/-- Library `memcmp(a, b, n)`: zero when the first `n` bytes agree, otherwise the
difference of the first pair of bytes that differ. -/
def memcmp : List Nat → List Nat → Nat → Int
  | _, _, 0 => 0
  | a :: as, b :: bs, n + 1 => if a = b then memcmp as bs n else (a : Int) - (b : Int)
  | _, _, _ => 0

/-! ## Split sync -/

/-- C source:
```
if (initiator2target_buffer_size == sizeof(g_spleeb_config)) {
    memcpy(&g_spleeb_config, initiator2target_buffer, sizeof(g_spleeb_config));
}
```
The reply buffer is not touched and is left out. -/
def spleeb_config_sync_handler (initiator2target_buffer_size : Nat)
    (initiator2target_buffer : List Nat) (s : State) : State :=
  if initiator2target_buffer_size = sizeof_spleeb_config then
    { s with g_spleeb_config :=
        of_bytes (memcpy (bytes_of s.g_spleeb_config) initiator2target_buffer
          sizeof_spleeb_config) }
  else s

/-- Modelled from the spec: `timer_elapsed32(last)`, the framework's 32-bit millisecond
difference between the timer value `now` and `last`. -/
def timer_elapsed32 (now last : Nat) : Nat :=
  (now % 4294967296 + 4294967296 - last % 4294967296) % 4294967296

/-- What one call of `housekeeping_task_kb` sees of its environment. -/
structure TickEnv where
  /-- Result of `is_keyboard_master()`. -/
  is_master : Bool
  /-- Timer value seen by `timer_elapsed32(last_sync)`. -/
  now : Nat
  /-- Result that `transaction_rpc_send` reports if it is called. -/
  send_ok : Bool
  /-- Timer value returned by `timer_read32()` after a successful send. -/
  now_after : Nat
deriving DecidableEq

/-- One call `transaction_rpc_send(RPC_ID_KB_CONFIG_SYNC, size, buffer)`. -/
structure RpcSend where
  size : Nat
  buffer : List Nat
deriving DecidableEq

/-- C source:
```
if (is_keyboard_master()) {
    static spleeb_config_t last_spleeb_config = {0};
    static uint32_t        last_sync          = 0;
    bool                   needs_sync         = false;
    if (memcmp(&g_spleeb_config, &last_spleeb_config, sizeof(g_spleeb_config))) {
        needs_sync = true;
        memcpy(&last_spleeb_config, &g_spleeb_config, sizeof(g_spleeb_config));
    }
    if (timer_elapsed32(last_sync) > 500) {
        needs_sync = true;
    }
    if (needs_sync) {
        if (transaction_rpc_send(RPC_ID_KB_CONFIG_SYNC, sizeof(g_spleeb_config), &g_spleeb_config)) {
            last_sync = timer_read32();
        }
    }
}
```
Returns the new state and the transport calls made, in order. -/
def housekeeping_task_kb (env : TickEnv) (s : State) : State × List RpcSend :=
  if env.is_master then
    let needs_sync := false
    let changed : Bool :=
      memcmp (bytes_of s.g_spleeb_config) (bytes_of s.last_spleeb_config)
        sizeof_spleeb_config != 0
    let needs_sync := if changed then true else needs_sync
    let s := if changed then
        { s with last_spleeb_config :=
            of_bytes (memcpy (bytes_of s.last_spleeb_config) (bytes_of s.g_spleeb_config)
              sizeof_spleeb_config) }
      else s
    let needs_sync := if timer_elapsed32 env.now s.last_sync > 500 then true else needs_sync
    if needs_sync then
      let call : RpcSend := ⟨sizeof_spleeb_config, bytes_of s.g_spleeb_config⟩
      if env.send_ok then
        ({ s with last_sync := env.now_after % 4294967296 }, [call])
      else (s, [call])
    else (s, [])
  else (s, [])

/-- The two halves of the split keyboard. -/
structure Split where
  master : State
  slave : State
deriving DecidableEq

/-- What can happen on the master half between and at ticks. -/
inductive Event where
  /-- The master's handlers leave `g_spleeb_config` holding `c`. -/
  | mutate (c : spleeb_config_t)
  /-- One call of `housekeeping_task_kb` on the master. -/
  | tick (env : TickEnv)
deriving DecidableEq

/-- Modelled from the spec: the inter-half transport.  A send that reports success
hands its size and payload to the slave's registered handler
`spleeb_config_sync_handler`; a send that reports failure delivers nothing. -/
def deliver (ok : Bool) (calls : List RpcSend) (slave : State) : State :=
  if ok then calls.foldl (fun sl c => spleeb_config_sync_handler c.size c.buffer sl) slave
  else slave

/-- One event of the two-half system. -/
def Split.step (sys : Split) : Event → Split
  | .mutate c => { sys with master := { sys.master with g_spleeb_config := c } }
  | .tick env =>
    let r := housekeeping_task_kb env sys.master
    { master := r.1, slave := deliver env.send_ok r.2 sys.slave }

/-- A finite interleaving of events, run from `sys`. -/
def Split.run (sys : Split) (evs : List Event) : Split := evs.foldl Split.step sys

/-- Whether the event, happening in `sys`, is a transmission that succeeds. -/
def transmits (sys : Split) : Event → Bool
  | .mutate _ => false
  | .tick env => !(housekeeping_task_kb env sys.master).2.isEmpty && env.send_ok

/-- The master's live record as it was at the most recent successful transmission of
the run `evs` from `sys`, or `acc` if no transmission of the run succeeded. -/
def last_transmitted : Split → List Event → Option spleeb_config_t → Option spleeb_config_t
  | _, [], acc => acc
  | sys, e :: evs, acc =>
    last_transmitted (sys.step e) evs
      (if transmits sys e then some sys.master.g_spleeb_config else acc)

/-! ## Pointer DPI -/

/-- The default `#define SPLEEB_MINIMUM_DEFAULT_DPI 300`. -/
def SPLEEB_MINIMUM_DEFAULT_DPI : Nat := 300

/-- The default `#define SPLEEB_DEFAULT_DPI_CONFIG_STEP 100`. -/
def SPLEEB_DEFAULT_DPI_CONFIG_STEP : Nat := 100

/-- The default `#define SPLEEB_MINIMUM_SNIPING_DPI 100`. -/
def SPLEEB_MINIMUM_SNIPING_DPI : Nat := 100

/-- The default `#define SPLEEB_SNIPING_DPI_CONFIG_STEP 100`. -/
def SPLEEB_SNIPING_DPI_CONFIG_STEP : Nat := 100

/-- The default `#define SPLEEB_DRAGSCROLL_DIVISOR 64`. -/
def SPLEEB_DRAGSCROLL_DIVISOR : Int := 64

/-- C source:
`return (uint16_t)config->pointer_default_dpi * SPLEEB_DEFAULT_DPI_CONFIG_STEP + SPLEEB_MINIMUM_DEFAULT_DPI;`
with the conversion of the result to `uint16_t`. -/
def get_pointer_default_dpi (config : spleeb_config_t) : Nat :=
  (pointer_default_dpi config * SPLEEB_DEFAULT_DPI_CONFIG_STEP + SPLEEB_MINIMUM_DEFAULT_DPI)
    % 65536

/-- C source:
`return (uint16_t)config->pointer_sniping_dpi * SPLEEB_SNIPING_DPI_CONFIG_STEP + SPLEEB_MINIMUM_SNIPING_DPI;`
with the conversion of the result to `uint16_t`. -/
def get_pointer_sniping_dpi (config : spleeb_config_t) : Nat :=
  (pointer_sniping_dpi config * SPLEEB_SNIPING_DPI_CONFIG_STEP + SPLEEB_MINIMUM_SNIPING_DPI)
    % 65536

/-- C source:
```
if (config->is_sniping_enabled) {
    return get_pointer_sniping_dpi(config);
} else {
    return get_pointer_default_dpi(config);
}
``` -/
def get_pointer_current_dpi (config : spleeb_config_t) : Nat :=
  if is_sniping_enabled config then get_pointer_sniping_dpi config
  else get_pointer_default_dpi config

/-- Modelled from the spec: `pointing_device_set_cpi(cpi)` applies the CPI to the
physical pointing device. -/
def pointing_device_set_cpi (cpi : Nat) (s : State) : State := { s with cpi := cpi % 65536 }

/-- C source:
```
if (config->is_dragscroll_enabled) {
    // pointing_device_set_cpi(SPLEEB_DRAGSCROLL_DPI);
} else if (config->is_sniping_enabled) {
    pointing_device_set_cpi(get_pointer_sniping_dpi(config));
} else {
    pointing_device_set_cpi(get_pointer_default_dpi(config));
}
``` -/
def maybe_update_pointing_device_cpi (config : spleeb_config_t) (s : State) : State :=
  if is_dragscroll_enabled config then s
  else if is_sniping_enabled config then
    pointing_device_set_cpi (get_pointer_sniping_dpi config) s
  else pointing_device_set_cpi (get_pointer_default_dpi config) s

/-- C source:
```
config->pointer_default_dpi += forward ? 1 : -1;
maybe_update_pointing_device_cpi(config);
```
Returns the new content of `*config` and the new state. -/
def step_pointer_default_dpi (config : spleeb_config_t) (forward : Bool) (s : State) :
    spleeb_config_t × State :=
  let config := set_pointer_default_dpi config
    ((pointer_default_dpi config : Int) + (if forward then 1 else -1))
  (config, maybe_update_pointing_device_cpi config s)

/-- C source:
```
config->pointer_sniping_dpi += forward ? 1 : -1;
maybe_update_pointing_device_cpi(config);
```
Returns the new content of `*config` and the new state. -/
def step_pointer_sniping_dpi (config : spleeb_config_t) (forward : Bool) (s : State) :
    spleeb_config_t × State :=
  let config := set_pointer_sniping_dpi config
    ((pointer_sniping_dpi config : Int) + (if forward then 1 else -1))
  (config, maybe_update_pointing_device_cpi config s)

/-- C source: `return get_pointer_default_dpi(&g_spleeb_config);` -/
def spleeb_get_pointer_default_dpi (s : State) : Nat :=
  get_pointer_default_dpi s.g_spleeb_config

/-- C source: `return get_pointer_sniping_dpi(&g_spleeb_config);` -/
def spleeb_get_pointer_sniping_dpi (s : State) : Nat :=
  get_pointer_sniping_dpi s.g_spleeb_config

/-- C source: `step_pointer_default_dpi(&g_spleeb_config, forward);` -/
def spleeb_cycle_pointer_default_dpi_noeeprom (forward : Bool) (s : State) : State :=
  let r := step_pointer_default_dpi s.g_spleeb_config forward s
  { r.2 with g_spleeb_config := r.1 }

/-- C source:
```
step_pointer_default_dpi(&g_spleeb_config, forward);
write_spleeb_config_to_eeprom(&g_spleeb_config);
``` -/
def spleeb_cycle_pointer_default_dpi (forward : Bool) (s : State) : State :=
  let r := step_pointer_default_dpi s.g_spleeb_config forward s
  let s := { r.2 with g_spleeb_config := r.1 }
  write_spleeb_config_to_eeprom s.g_spleeb_config s

/-- C source: `step_pointer_sniping_dpi(&g_spleeb_config, forward);` -/
def spleeb_cycle_pointer_sniping_dpi_noeeprom (forward : Bool) (s : State) : State :=
  let r := step_pointer_sniping_dpi s.g_spleeb_config forward s
  { r.2 with g_spleeb_config := r.1 }

/-- C source:
```
step_pointer_sniping_dpi(&g_spleeb_config, forward);
write_spleeb_config_to_eeprom(&g_spleeb_config);
``` -/
def spleeb_cycle_pointer_sniping_dpi (forward : Bool) (s : State) : State :=
  let r := step_pointer_sniping_dpi s.g_spleeb_config forward s
  let s := { r.2 with g_spleeb_config := r.1 }
  write_spleeb_config_to_eeprom s.g_spleeb_config s

/-! ## Drag-scroll -/

/-- Conversion of an integer to `int8_t` (two's complement wrap). -/
def to_int8 (n : Int) : Int := (n + 128) % 256 - 128

/-- Conversion of an integer to `int16_t` (two's complement wrap). -/
def to_int16 (n : Int) : Int := (n + 32768) % 65536 - 32768

/-- Modelled from the spec: the framework's mouse report, with the raw motion deltas
`x`, `y` and the scroll deltas `v`, `h`, all of type `int8_t`, and the button byte. -/
structure report_mouse_t where
  buttons : Nat := 0
  x : Int := 0
  y : Int := 0
  v : Int := 0
  h : Int := 0
deriving DecidableEq

/-- C source:
```
static int16_t scroll_x = 0;
static int16_t scroll_y = 0;
if (g_spleeb_config.is_dragscroll_enabled) {
    scroll_x -= mouse_report->x;
    scroll_y += mouse_report->y;
    mouse_report->h = scroll_x / SPLEEB_DRAGSCROLL_DIVISOR;
    mouse_report->v = scroll_y / SPLEEB_DRAGSCROLL_DIVISOR;
    mouse_report->x = 0;
    mouse_report->y = 0;
    scroll_x -= (int16_t)mouse_report->h * SPLEEB_DRAGSCROLL_DIVISOR;
    scroll_y -= (int16_t)mouse_report->v * SPLEEB_DRAGSCROLL_DIVISOR;
}
```
C division truncates toward zero (`Int.tdiv`).  Returns the new content of
`*mouse_report` and the new state. -/
def pointing_device_task_spleeb (mouse_report : report_mouse_t) (s : State) :
    report_mouse_t × State :=
  if is_dragscroll_enabled s.g_spleeb_config then
    let scroll_x := to_int16 (s.scroll_x - mouse_report.x)
    let scroll_y := to_int16 (s.scroll_y + mouse_report.y)
    let mouse_report := { mouse_report with
      h := to_int8 (Int.tdiv scroll_x SPLEEB_DRAGSCROLL_DIVISOR) }
    let mouse_report := { mouse_report with
      v := to_int8 (Int.tdiv scroll_y SPLEEB_DRAGSCROLL_DIVISOR) }
    let mouse_report := { mouse_report with x := 0 }
    let mouse_report := { mouse_report with y := 0 }
    let scroll_x := to_int16 (scroll_x - to_int16 mouse_report.h * SPLEEB_DRAGSCROLL_DIVISOR)
    let scroll_y := to_int16 (scroll_y - to_int16 mouse_report.v * SPLEEB_DRAGSCROLL_DIVISOR)
    (mouse_report, { s with scroll_x := scroll_x, scroll_y := scroll_y })
  else (mouse_report, s)

/-- A sequence of pointer reports pushed through `pointing_device_task_spleeb`, one per
tick: the final state and the reports as they came out, in order. -/
def feed_reports (s : State) : List report_mouse_t → State × List report_mouse_t
  | [] => (s, [])
  | r :: rs =>
    let o := pointing_device_task_spleeb r s
    let rest := feed_reports o.2 rs
    (rest.1, o.1 :: rest.2)

/-! ## Encoder modes -/

/-- Enumerator `ENCODER_DEFAULT_DPI` of `enum EncoderMode`. -/
def ENCODER_DEFAULT_DPI : Nat := 0

/-- Enumerator `ENCODER_SNIPING_DPI` of `enum EncoderMode`. -/
def ENCODER_SNIPING_DPI : Nat := 1

/-- Enumerator `_NUM_R_MODES` of `enum EncoderMode`. -/
def _NUM_R_MODES : Nat := 2

/-- Enumerator `ENCODER_VOLUME` of `enum EncoderMode`. -/
def ENCODER_VOLUME : Nat := 3

/-- Enumerator `_NUM_L_MODES` of `enum EncoderMode`. -/
def _NUM_L_MODES : Nat := 4

/-- The macro `#define __ENC_L_START (_NUM_R_MODES + 1)`. -/
def __ENC_L_START : Nat := _NUM_R_MODES + 1

/-- Modelled from the spec: the framework's `NUM_ENCODERS`; the keyboard has two
encoders, one per entry of `enc_modes[2]`. -/
def NUM_ENCODERS : Nat := 2

/-- Modelled from the spec: the framework keycode `KC_VOLU` (volume up). -/
def KC_VOLU : Nat := 169

/-- Modelled from the spec: the framework keycode `KC_VOLD` (volume down). -/
def KC_VOLD : Nat := 170

/-- Modelled from the spec: `tap_code(kc)` emits one press and release of `kc`. -/
def tap_code (kc : Nat) (s : State) : State := { s with taps := kc :: s.taps }

/-- C source:
```
g_spleeb_config.raw                 = 0;
g_spleeb_config.pointer_default_dpi = 4;
for (size_t i = 0; i < NUM_ENCODERS; i++) {
    g_spleeb_config.enc_modes[i] = 0;
}
write_spleeb_config_to_eeprom(&g_spleeb_config);
eeconfig_init_user();
```
The user-level hook `eeconfig_init_user` is outside this file and left out. -/
def eeconfig_init_kb (s : State) : State :=
  let s := { s with g_spleeb_config := mk32 0 }
  let s := { s with g_spleeb_config := set_pointer_default_dpi s.g_spleeb_config 4 }
  let s := (List.range NUM_ENCODERS).foldl
    (fun s i => { s with g_spleeb_config := set_enc_modes s.g_spleeb_config i 0 }) s
  write_spleeb_config_to_eeprom s.g_spleeb_config s

/-- C source:
```
read_spleeb_config_from_eeprom(&g_spleeb_config);
matrix_init_user();
```
The user-level hook `matrix_init_user` is outside this file and left out. -/
def matrix_init_kb (s : State) : State :=
  { s with g_spleeb_config := read_spleeb_config_from_eeprom s }

/-- C source:
```
config->enc_modes[1] = (config->enc_modes[1] + 1) % _NUM_R_MODES;
write_spleeb_config_to_eeprom(config);
```
Returns the new content of `*config` and the new state. -/
def step_spleeb_right_enc (config : spleeb_config_t) (s : State) : spleeb_config_t × State :=
  let config := set_enc_modes config 1
    (Int.tmod ((enc_modes config 1 : Int) + 1) (_NUM_R_MODES : Int))
  (config, write_spleeb_config_to_eeprom config s)

/-- C source:
```
config->enc_modes[0] = __ENC_L_START + (((config->enc_modes[0] - __ENC_L_START) + 1) % (_NUM_L_MODES - __ENC_L_START));
write_spleeb_config_to_eeprom(config);
```
The arithmetic is done in `int`; `%` truncates toward zero (`Int.tmod`).  Returns the
new content of `*config` and the new state. -/
def step_spleeb_left_enc (config : spleeb_config_t) (s : State) : spleeb_config_t × State :=
  let config := set_enc_modes config 0
    ((__ENC_L_START : Int)
      + Int.tmod (((enc_modes config 0 : Int) - (__ENC_L_START : Int)) + 1)
          ((_NUM_L_MODES : Int) - (__ENC_L_START : Int)))
  (config, write_spleeb_config_to_eeprom config s)

/-- C source:
```
if (!encoder_update_user(index, clockwise)) {
    return false;
}
uint8_t enc_mode = g_spleeb_config.enc_modes[index];
switch (index) {
    case 0:
        switch (enc_mode) {
            case ENCODER_VOLUME:
                tap_code(clockwise ? KC_VOLU : KC_VOLD);
                break;
            default:
                break;
        }
        break;
    case 1:
        switch (enc_mode) {
            case ENCODER_DEFAULT_DPI:
                spleeb_cycle_pointer_default_dpi(clockwise);
                break;
            case ENCODER_SNIPING_DPI:
                spleeb_cycle_pointer_sniping_dpi(clockwise);
                break;
            default:
                break;
        }
        break;
}
return true;
```
The argument `user` is what `encoder_update_user(index, clockwise)` returns. -/
def encoder_update_kb (user : Bool) (index : Nat) (clockwise : Bool) (s : State) :
    Bool × State :=
  if !user then (false, s)
  else
    let enc_mode := enc_modes s.g_spleeb_config index
    let s :=
      if index = 0 then
        if enc_mode = ENCODER_VOLUME then tap_code (if clockwise then KC_VOLU else KC_VOLD) s
        else s
      else if index = 1 then
        if enc_mode = ENCODER_DEFAULT_DPI then spleeb_cycle_pointer_default_dpi clockwise s
        else if enc_mode = ENCODER_SNIPING_DPI then spleeb_cycle_pointer_sniping_dpi clockwise s
        else s
      else s
    (true, s)

/-! ## Sniper and drag-scroll switches -/

/-- C source: `return g_spleeb_config.is_sniping_enabled;` -/
def spleeb_get_pointer_sniping_enabled (s : State) : Bool :=
  is_sniping_enabled s.g_spleeb_config

/-- C source:
```
g_spleeb_config.is_sniping_enabled = enable;
maybe_update_pointing_device_cpi(&g_spleeb_config);
``` -/
def spleeb_set_pointer_sniping_enabled (enable : Bool) (s : State) : State :=
  let s := { s with g_spleeb_config := set_is_sniping_enabled s.g_spleeb_config enable }
  maybe_update_pointing_device_cpi s.g_spleeb_config s

/-- C source: `return g_spleeb_config.is_dragscroll_enabled;` -/
def spleeb_get_pointer_dragscroll_enabled (s : State) : Bool :=
  is_dragscroll_enabled s.g_spleeb_config

/-- Modelled from the spec: `cirque_pinnacle_enable_cursor_glide(enable)` switches the
hardware cursor-glide feature. -/
def cirque_pinnacle_enable_cursor_glide (enable : Bool) (s : State) : State :=
  { s with cursor_glide := enable }

/-- C source:
```
g_spleeb_config.is_dragscroll_enabled = enable;
cirque_pinnacle_enable_cursor_glide(enable);
maybe_update_pointing_device_cpi(&g_spleeb_config);
``` -/
def spleeb_set_pointer_dragscroll_enabled (enable : Bool) (s : State) : State :=
  let s := { s with g_spleeb_config := set_is_dragscroll_enabled s.g_spleeb_config enable }
  let s := cirque_pinnacle_enable_cursor_glide enable s
  maybe_update_pointing_device_cpi s.g_spleeb_config s

/-! ## Custom keycodes and the key-event dispatcher

The enumeration `spleeb_keycodes` starts at the framework's `SAFE_RANGE` (or `USER00`
under VIA), which this repository does not fix; it is a parameter. -/

/-- Enumerator `POINTER_DEFAULT_DPI_FORWARD = SAFE_RANGE`. -/
def POINTER_DEFAULT_DPI_FORWARD (SAFE_RANGE : Nat) : Nat := SAFE_RANGE

/-- Enumerator `POINTER_DEFAULT_DPI_REVERSE`. -/
def POINTER_DEFAULT_DPI_REVERSE (SAFE_RANGE : Nat) : Nat := SAFE_RANGE + 1

/-- Enumerator `POINTER_SNIPING_DPI_FORWARD`. -/
def POINTER_SNIPING_DPI_FORWARD (SAFE_RANGE : Nat) : Nat := SAFE_RANGE + 2

/-- Enumerator `POINTER_SNIPING_DPI_REVERSE`. -/
def POINTER_SNIPING_DPI_REVERSE (SAFE_RANGE : Nat) : Nat := SAFE_RANGE + 3

/-- Enumerator `SNIPING_MODE`. -/
def SNIPING_MODE (SAFE_RANGE : Nat) : Nat := SAFE_RANGE + 4

/-- Enumerator `SNIPING_MODE_TOGGLE`. -/
def SNIPING_MODE_TOGGLE (SAFE_RANGE : Nat) : Nat := SAFE_RANGE + 5

/-- Enumerator `DRAGSCROLL_MODE`. -/
def DRAGSCROLL_MODE (SAFE_RANGE : Nat) : Nat := SAFE_RANGE + 6

/-- Enumerator `DRAGSCROLL_MODE_TOGGLE`. -/
def DRAGSCROLL_MODE_TOGGLE (SAFE_RANGE : Nat) : Nat := SAFE_RANGE + 7

/-- Enumerator `ENC_MODE_LEFT_TOGGLE`. -/
def ENC_MODE_LEFT_TOGGLE (SAFE_RANGE : Nat) : Nat := SAFE_RANGE + 8

/-- Enumerator `ENC_MODE_RIGHT_TOGGLE`. -/
def ENC_MODE_RIGHT_TOGGLE (SAFE_RANGE : Nat) : Nat := SAFE_RANGE + 9

/-- Enumerator `SPLEEB_SAFE_RANGE`. -/
def SPLEEB_SAFE_RANGE (SAFE_RANGE : Nat) : Nat := SAFE_RANGE + 10

/-- The first `switch (keycode)` of `process_record_kb` (pointing device keys):
```
case POINTER_DEFAULT_DPI_FORWARD: if (record->event.pressed) { spleeb_cycle_pointer_default_dpi(true); } break;
case POINTER_DEFAULT_DPI_REVERSE: if (record->event.pressed) { spleeb_cycle_pointer_default_dpi(false); } break;
case POINTER_SNIPING_DPI_FORWARD: if (record->event.pressed) { spleeb_cycle_pointer_sniping_dpi(true); } break;
case POINTER_SNIPING_DPI_REVERSE: if (record->event.pressed) { spleeb_cycle_pointer_sniping_dpi(false); } break;
case SNIPING_MODE: spleeb_set_pointer_sniping_enabled(record->event.pressed); break;
case SNIPING_MODE_TOGGLE: if (record->event.pressed) { spleeb_set_pointer_sniping_enabled(!spleeb_get_pointer_sniping_enabled()); } break;
case DRAGSCROLL_MODE: spleeb_set_pointer_dragscroll_enabled(record->event.pressed); break;
case DRAGSCROLL_MODE_TOGGLE: if (record->event.pressed) { spleeb_set_pointer_dragscroll_enabled(!spleeb_get_pointer_dragscroll_enabled()); } break;
``` -/
def process_record_pointer_keys (SAFE_RANGE keycode : Nat) (pressed : Bool) (s : State) :
    State :=
  if keycode = POINTER_DEFAULT_DPI_FORWARD SAFE_RANGE then
    if pressed then spleeb_cycle_pointer_default_dpi true s else s
  else if keycode = POINTER_DEFAULT_DPI_REVERSE SAFE_RANGE then
    if pressed then spleeb_cycle_pointer_default_dpi false s else s
  else if keycode = POINTER_SNIPING_DPI_FORWARD SAFE_RANGE then
    if pressed then spleeb_cycle_pointer_sniping_dpi true s else s
  else if keycode = POINTER_SNIPING_DPI_REVERSE SAFE_RANGE then
    if pressed then spleeb_cycle_pointer_sniping_dpi false s else s
  else if keycode = SNIPING_MODE SAFE_RANGE then
    spleeb_set_pointer_sniping_enabled pressed s
  else if keycode = SNIPING_MODE_TOGGLE SAFE_RANGE then
    if pressed then
      spleeb_set_pointer_sniping_enabled (!spleeb_get_pointer_sniping_enabled s) s
    else s
  else if keycode = DRAGSCROLL_MODE SAFE_RANGE then
    spleeb_set_pointer_dragscroll_enabled pressed s
  else if keycode = DRAGSCROLL_MODE_TOGGLE SAFE_RANGE then
    if pressed then
      spleeb_set_pointer_dragscroll_enabled (!spleeb_get_pointer_dragscroll_enabled s) s
    else s
  else s

/-- The second `switch (keycode)` of `process_record_kb` (encoder keys):
```
case ENC_MODE_LEFT_TOGGLE: if (record->event.pressed) { step_spleeb_left_enc(&g_spleeb_config); } break;
case ENC_MODE_RIGHT_TOGGLE: if (record->event.pressed) { step_spleeb_right_enc(&g_spleeb_config); } break;
``` -/
def process_record_encoder_keys (SAFE_RANGE keycode : Nat) (pressed : Bool) (s : State) :
    State :=
  if keycode = ENC_MODE_LEFT_TOGGLE SAFE_RANGE then
    if pressed then
      let r := step_spleeb_left_enc s.g_spleeb_config s
      { r.2 with g_spleeb_config := r.1 }
    else s
  else if keycode = ENC_MODE_RIGHT_TOGGLE SAFE_RANGE then
    if pressed then
      let r := step_spleeb_right_enc s.g_spleeb_config s
      { r.2 with g_spleeb_config := r.1 }
    else s
  else s

/-- C source:
```
if (!process_record_user(keycode, record)) {
    debug_spleeb_config_to_console(&g_spleeb_config);
    return false;
}
switch (keycode) { ... }   // pointing device keys
switch (keycode) { ... }   // encoder keys
if ((keycode >= POINTER_DEFAULT_DPI_FORWARD && keycode < SPLEEB_SAFE_RANGE) || IS_MOUSEKEY(keycode)) {
    debug_spleeb_config_to_console(&g_spleeb_config);
}
return true;
```
The argument `user` is what `process_record_user(keycode, record)` returns and `pressed`
is `record->event.pressed`.  `debug_spleeb_config_to_console` only prints and is left
out. -/
def process_record_kb (SAFE_RANGE : Nat) (user : Bool) (keycode : Nat) (pressed : Bool)
    (s : State) : Bool × State :=
  if !user then (false, s)
  else
    let s := process_record_pointer_keys SAFE_RANGE keycode pressed s
    let s := process_record_encoder_keys SAFE_RANGE keycode pressed s
    (true, s)

/-! ## Pointing device hooks -/

/-- C source:
```
maybe_update_pointing_device_cpi(&g_spleeb_config);
// only glide on drag scroll
cirque_pinnacle_enable_cursor_glide(false);
set_auto_mouse_enable(true);
pointing_device_init_user();
```
The framework call `set_auto_mouse_enable` and the user-level hook
`pointing_device_init_user` are outside this file and left out. -/
def pointing_device_init_kb (s : State) : State :=
  let s := maybe_update_pointing_device_cpi s.g_spleeb_config s
  cirque_pinnacle_enable_cursor_glide false s

/-- C source:
```
if (is_keyboard_master()) {
    pointing_device_task_spleeb(&mouse_report);
    mouse_report = pointing_device_task_user(mouse_report);
}
return mouse_report;
```
The argument `is_master` is what `is_keyboard_master()` returns and
`pointing_device_task_user` is the user-level hook, a function of the report. -/
def pointing_device_task_kb (is_master : Bool)
    (pointing_device_task_user : report_mouse_t → report_mouse_t)
    (mouse_report : report_mouse_t) (s : State) : report_mouse_t × State :=
  if is_master then
    let o := pointing_device_task_spleeb mouse_report s
    (pointing_device_task_user o.1, o.2)
  else (mouse_report, s)

/-- A sequence of ticks of `pointing_device_task_spleeb` with key events in between:
each tick comes with the configuration record as the events before it have left it and
with the incoming report.  The result is the final state and, per tick, that record and
the report as it came out. -/
def feed_ticks (s : State) :
    List (spleeb_config_t × report_mouse_t) → State × List (spleeb_config_t × report_mouse_t)
  | [] => (s, [])
  | t :: ts =>
    let s := { s with g_spleeb_config := t.1 }
    let o := pointing_device_task_spleeb t.2 s
    let rest := feed_ticks o.2 ts
    (rest.1, (t.1, o.1) :: rest.2)

/-! ## Theorems -/

/-! ### Object representation -/

theorem mk32_raw (n : Nat) : (mk32 n).raw = n % 4294967296 := rfl

theorem sizeof_spleeb_config_eq : sizeof_spleeb_config = 4 := rfl

theorem of_bytes_bytes_of (c : spleeb_config_t) : of_bytes (bytes_of c) = c := by
  have h := c.raw_lt
  apply spleeb_config_t.ext
  simp only [of_bytes, bytes_of, mk32_raw, List.getD_cons_zero, List.getD_cons_succ]
  omega

theorem memcpy_whole (c : spleeb_config_t) (b : List Nat) :
    of_bytes (memcpy (bytes_of c) b sizeof_spleeb_config) = of_bytes b := by
  apply spleeb_config_t.ext
  rcases b with _ | ⟨b0, _ | ⟨b1, _ | ⟨b2, _ | ⟨b3, t⟩⟩⟩⟩ <;>
    simp [of_bytes, memcpy, bytes_of, sizeof_spleeb_config_eq, mk32_raw]

theorem memcmp_bytes_of (c d : spleeb_config_t) :
    memcmp (bytes_of c) (bytes_of d) sizeof_spleeb_config = 0 ↔ c = d := by
  have hc := c.raw_lt
  have hd := d.raw_lt
  rw [spleeb_config_t.ext_iff]
  simp only [sizeof_spleeb_config_eq, bytes_of, memcmp]
  split_ifs <;> omega


/-- C1: writing any record to EEPROM and reading it back gives a record with the same
index of the default DPI, index of the sniper DPI and encoder modes, and with both
volatile flags false whatever they were in the written record. -/
theorem C1_write_then_read (s : State) (r : spleeb_config_t) :
    pointer_default_dpi (read_spleeb_config_from_eeprom (write_spleeb_config_to_eeprom r s))
        = pointer_default_dpi r
    ∧ pointer_sniping_dpi (read_spleeb_config_from_eeprom (write_spleeb_config_to_eeprom r s))
        = pointer_sniping_dpi r
    ∧ enc_modes (read_spleeb_config_from_eeprom (write_spleeb_config_to_eeprom r s)) 0
        = enc_modes r 0
    ∧ enc_modes (read_spleeb_config_from_eeprom (write_spleeb_config_to_eeprom r s)) 1
        = enc_modes r 1
    ∧ is_dragscroll_enabled
        (read_spleeb_config_from_eeprom (write_spleeb_config_to_eeprom r s)) = false
    ∧ is_sniping_enabled
        (read_spleeb_config_from_eeprom (write_spleeb_config_to_eeprom r s)) = false := by
  have h := r.raw_lt
  simp only [read_spleeb_config_from_eeprom, write_spleeb_config_to_eeprom,
    eeconfig_update_kb, eeconfig_read_kb, set_is_dragscroll_enabled, set_is_sniping_enabled,
    mk32, pointer_default_dpi, pointer_sniping_dpi, enc_modes, is_dragscroll_enabled,
    is_sniping_enabled]
  simp
  omega

/-! ### The sync tick -/

/-- The calls and state of a tick that finds nothing to do. -/
theorem housekeeping_not_master (env : TickEnv) (s : State) (h : env.is_master = false) :
    housekeeping_task_kb env s = (s, []) := by
  simp [housekeeping_task_kb, h]

/-- Closed form of a master tick. -/
theorem housekeeping_master (env : TickEnv) (s : State) (h : env.is_master = true) :
    housekeeping_task_kb env s =
      if s.g_spleeb_config ≠ s.last_spleeb_config ∨ timer_elapsed32 env.now s.last_sync > 500 then
        if env.send_ok then
          ({ s with last_spleeb_config := s.g_spleeb_config,
                    last_sync := env.now_after % 4294967296 },
            [⟨4, bytes_of s.g_spleeb_config⟩])
        else
          ({ s with last_spleeb_config := s.g_spleeb_config },
            [⟨4, bytes_of s.g_spleeb_config⟩])
      else (s, []) := by
  obtain ⟨g, ee, last, ls, sx, sy, cpi, glide, taps⟩ := s
  have hself : memcmp (bytes_of g) (bytes_of g) 4 = 0 := (memcmp_bytes_of g g).2 rfl
  by_cases hc : g = last
  · subst hc
    by_cases ht : 500 < timer_elapsed32 env.now ls <;>
      cases hok : env.send_ok <;>
      simp [housekeeping_task_kb, h, hself, ht, hok, sizeof_spleeb_config_eq]
  · have hm : ¬ memcmp (bytes_of g) (bytes_of last) 4 = 0 :=
      fun e => hc ((memcmp_bytes_of _ _).1 e)
    have hcp : of_bytes (memcpy (bytes_of last) (bytes_of g) 4) = g := by
      rw [← sizeof_spleeb_config_eq, memcpy_whole, of_bytes_bytes_of]
    cases hok : env.send_ok <;>
      simp [housekeeping_task_kb, h, hm, hc, hok, hcp, sizeof_spleeb_config_eq]

/-- C2: the receive handler leaves the live record (and everything else) alone when the
size is not `sizeof(spleeb_config_t)` = 4, and when it is 4 replaces the whole record,
both volatile flags included, by the record encoded in the buffer; the result is never
anything but one of these two records. -/
theorem C2_sync_handler_all_or_nothing (s : State) (n : Nat) (b : List Nat) :
    sizeof_spleeb_config = 4
    ∧ (n ≠ 4 → spleeb_config_sync_handler n b s = s)
    ∧ (n = 4 →
        spleeb_config_sync_handler n b s = { s with g_spleeb_config := of_bytes b }
        ∧ pointer_default_dpi (spleeb_config_sync_handler n b s).g_spleeb_config
            = b.getD 0 0 % 16
        ∧ pointer_sniping_dpi (spleeb_config_sync_handler n b s).g_spleeb_config
            = b.getD 0 0 / 16 % 4
        ∧ enc_modes (spleeb_config_sync_handler n b s).g_spleeb_config 0 = b.getD 1 0 % 256
        ∧ enc_modes (spleeb_config_sync_handler n b s).g_spleeb_config 1 = b.getD 2 0 % 256
        ∧ is_dragscroll_enabled (spleeb_config_sync_handler n b s).g_spleeb_config
            = (b.getD 3 0 % 2 == 1)
        ∧ is_sniping_enabled (spleeb_config_sync_handler n b s).g_spleeb_config
            = (b.getD 3 0 / 2 % 2 == 1))
    ∧ ((spleeb_config_sync_handler n b s).g_spleeb_config = s.g_spleeb_config
        ∨ (spleeb_config_sync_handler n b s).g_spleeb_config = of_bytes b) := by
  refine ⟨rfl, ?_, ?_, ?_⟩
  · intro hn
    simp [spleeb_config_sync_handler, sizeof_spleeb_config_eq, hn]
  · intro hn
    have hg : spleeb_config_sync_handler n b s = { s with g_spleeb_config := of_bytes b } := by
      simp [spleeb_config_sync_handler, hn, ← sizeof_spleeb_config_eq, memcpy_whole]
    rw [hg]
    refine ⟨rfl, ?_, ?_, ?_, ?_, ?_, ?_⟩ <;>
      simp only [pointer_default_dpi, pointer_sniping_dpi, enc_modes, is_dragscroll_enabled,
        is_sniping_enabled, of_bytes, mk32_raw, if_true, if_false, one_ne_zero] <;>
      first
        | omega
        | (congr 1; omega)
  · by_cases hn : n = 4
    · right
      simp [spleeb_config_sync_handler, hn, ← sizeof_spleeb_config_eq, memcpy_whole]
    · left
      simp [spleeb_config_sync_handler, sizeof_spleeb_config_eq, hn]

/-- C2 at a concrete input: a 3-byte message is dropped, a 4-byte message with both flag
bits set replaces the record. -/
theorem C2_sync_handler_witness :
    spleeb_config_sync_handler 3 [5, 3, 1] ({} : State) = ({} : State)
    ∧ is_sniping_enabled
        (spleeb_config_sync_handler 4 [5, 3, 1, 3] ({} : State)).g_spleeb_config = true := by
  refine ⟨(C2_sync_handler_all_or_nothing {} 3 [5, 3, 1]).2.1 (by decide), ?_⟩
  rw [((C2_sync_handler_all_or_nothing {} 4 [5, 3, 1, 3]).2.2.1 rfl).2.2.2.2.2.2]
  decide

/-- C3: one tick makes at most one transport call; on the master a call is made exactly
when the live record differs from the snapshot or `timer_elapsed32(last_sync) > 500`,
and it carries the four bytes of the current live record; on the other half the tick
makes no call and changes nothing. -/
theorem C3_housekeeping_tick (env : TickEnv) (s : State) :
    (housekeeping_task_kb env s).2.length ≤ 1
    ∧ (env.is_master = true →
        ((housekeeping_task_kb env s).2 ≠ [] ↔
          (s.g_spleeb_config ≠ s.last_spleeb_config
            ∨ timer_elapsed32 env.now s.last_sync > 500))
        ∧ ∀ c ∈ (housekeeping_task_kb env s).2,
            c.size = sizeof_spleeb_config ∧ c.buffer = bytes_of s.g_spleeb_config
              ∧ of_bytes c.buffer = s.g_spleeb_config)
    ∧ (env.is_master = false → housekeeping_task_kb env s = (s, [])) := by
  refine ⟨?_, ?_, housekeeping_not_master env s⟩
  · cases hm : env.is_master
    · simp [housekeeping_not_master env s hm]
    · rw [housekeeping_master env s hm]
      split_ifs <;> simp
  · intro hm
    rw [housekeeping_master env s hm]
    split_ifs with h1 h2 <;>
      simp [h1, sizeof_spleeb_config_eq, of_bytes_bytes_of]

/-- C3 at a concrete input: a master whose record was changed to raw word 5 sends the
bytes `5 0 0 0` at time 10; the same tick on the other half sends nothing. -/
theorem C3_housekeeping_tick_witness :
    (housekeeping_task_kb ⟨true, 10, true, 10⟩ { g_spleeb_config := mk32 5 }).2 ≠ []
    ∧ housekeeping_task_kb ⟨false, 10, true, 10⟩ { g_spleeb_config := mk32 5 }
        = ({ g_spleeb_config := mk32 5 }, []) :=
  ⟨((C3_housekeeping_tick ⟨true, 10, true, 10⟩ { g_spleeb_config := mk32 5 }).2.1 rfl).1.2
      (Or.inl (by decide)),
    (C3_housekeeping_tick ⟨false, 10, true, 10⟩ { g_spleeb_config := mk32 5 }).2.2 rfl⟩

/-- C4 fails as stated: the master record changes to raw word 5, the tick at time 10
sends and the transport reports failure, yet the snapshot already equals the live
record, and the tick at time 11 (record unchanged, 11 ms since the last sync) makes no
transport call. -/
theorem C4_no_retry_on_next_tick :
    (housekeeping_task_kb ⟨true, 10, false, 10⟩ { g_spleeb_config := mk32 5 }).2
        = [⟨4, [5, 0, 0, 0]⟩]
    ∧ (housekeeping_task_kb ⟨true, 10, false, 10⟩
          { g_spleeb_config := mk32 5 }).1.last_spleeb_config = mk32 5
    ∧ (housekeeping_task_kb ⟨true, 10, false, 10⟩
          { g_spleeb_config := mk32 5 }).1.g_spleeb_config = mk32 5
    ∧ timer_elapsed32 11 (housekeeping_task_kb ⟨true, 10, false, 10⟩
          { g_spleeb_config := mk32 5 }).1.last_sync ≤ 500
    ∧ (housekeeping_task_kb ⟨true, 11, true, 11⟩
          (housekeeping_task_kb ⟨true, 10, false, 10⟩ { g_spleeb_config := mk32 5 }).1).2
        = [] := by
  decide

/-- C4 as amended: a master tick that finds the record changed sends it and makes the
snapshot equal to the live record whatever the transport reports; `last_sync` alone
depends on the report: on success it becomes the value of `timer_read32()`, on failure
(or when nothing is sent) it keeps its value.  So after a failed send the following
master tick, with the record unchanged, makes a transport call exactly when
`timer_elapsed32(last_sync) > 500` for that unchanged `last_sync`, and after a
successful send exactly when more than 500 ms have passed since the new `last_sync`. -/
theorem C4_failed_send_waits_for_timeout (env1 env2 : TickEnv) (s : State)
    (hm1 : env1.is_master = true) (hm2 : env2.is_master = true)
    (hchg : s.g_spleeb_config ≠ s.last_spleeb_config) :
    (housekeeping_task_kb env1 s).2 ≠ []
    ∧ (housekeeping_task_kb env1 s).1.last_spleeb_config = s.g_spleeb_config
    ∧ (housekeeping_task_kb env1 s).1.g_spleeb_config = s.g_spleeb_config
    ∧ (env1.send_ok = false →
        (housekeeping_task_kb env1 s).1.last_sync = s.last_sync
        ∧ ((housekeeping_task_kb env2 (housekeeping_task_kb env1 s).1).2 ≠ [] ↔
            timer_elapsed32 env2.now s.last_sync > 500))
    ∧ (env1.send_ok = true →
        (housekeeping_task_kb env1 s).1.last_sync = env1.now_after % 4294967296
        ∧ ((housekeeping_task_kb env2 (housekeeping_task_kb env1 s).1).2 ≠ [] ↔
            timer_elapsed32 env2.now (env1.now_after % 4294967296) > 500))
    ∧ (∀ t : State,
        ((housekeeping_task_kb env1 t).2 ≠ [] → env1.send_ok = true →
          (housekeeping_task_kb env1 t).1.last_sync = env1.now_after % 4294967296)
        ∧ (((housekeeping_task_kb env1 t).2 = [] ∨ env1.send_ok = false) →
          (housekeeping_task_kb env1 t).1.last_sync = t.last_sync)
        ∧ (housekeeping_task_kb env1 t).1.last_spleeb_config = t.g_spleeb_config) := by
  have hgen : ∀ t : State,
      ((housekeeping_task_kb env1 t).2 ≠ [] → env1.send_ok = true →
        (housekeeping_task_kb env1 t).1.last_sync = env1.now_after % 4294967296)
      ∧ (((housekeeping_task_kb env1 t).2 = [] ∨ env1.send_ok = false) →
        (housekeeping_task_kb env1 t).1.last_sync = t.last_sync)
      ∧ (housekeeping_task_kb env1 t).1.last_spleeb_config = t.g_spleeb_config := by
    intro t
    rw [housekeeping_master env1 t hm1]
    by_cases hc : t.g_spleeb_config = t.last_spleeb_config
    · cases hok : env1.send_ok <;> split_ifs <;> simp_all
    · cases hok : env1.send_ok <;> simp [hc]
  refine ⟨?_, ?_, ?_, ?_, ?_, hgen⟩
  · rw [housekeeping_master env1 s hm1]
    simp only [hchg, ne_eq, not_false_eq_true, true_or, if_true]
    cases env1.send_ok <;> simp
  · exact (hgen s).2.2
  · rw [housekeeping_master env1 s hm1]
    simp only [hchg, ne_eq, not_false_eq_true, true_or, if_true]
    cases env1.send_ok <;> simp
  · intro hok
    rw [housekeeping_master env1 s hm1]
    simp only [hchg, ne_eq, not_false_eq_true, true_or, if_true, hok, Bool.false_eq_true,
      if_false]
    refine ⟨trivial, ?_⟩
    rw [housekeeping_master env2 _ hm2]
    simp only [ne_eq, not_true_eq_false, false_or]
    split_ifs with h <;> simp [h]
  · intro hok
    rw [housekeeping_master env1 s hm1]
    simp only [hchg, ne_eq, not_false_eq_true, true_or, if_true, hok]
    refine ⟨trivial, ?_⟩
    rw [housekeeping_master env2 _ hm2]
    simp only [ne_eq, not_true_eq_false, false_or]
    split_ifs with h <;> simp [h]

/-- C4 (amended) at a concrete input: failure at time 10 leaves `last_sync` at 0 and no
call follows at time 11; success at time 10 stores the timer value 10. -/
theorem C4_failed_send_waits_for_timeout_witness :
    ¬ ((housekeeping_task_kb ⟨true, 11, true, 11⟩
          (housekeeping_task_kb ⟨true, 10, false, 10⟩ { g_spleeb_config := mk32 5 }).1).2
        ≠ [])
    ∧ (housekeeping_task_kb ⟨true, 10, true, 10⟩ { g_spleeb_config := mk32 5 }).1.last_sync
        = 10 :=
  ⟨fun h =>
    absurd
      (((C4_failed_send_waits_for_timeout ⟨true, 10, false, 10⟩ ⟨true, 11, true, 11⟩
          { g_spleeb_config := mk32 5 } rfl rfl (by decide)).2.2.2.1 rfl).2.1 h)
      (by decide),
    ((C4_failed_send_waits_for_timeout ⟨true, 10, true, 10⟩ ⟨true, 11, true, 11⟩
        { g_spleeb_config := mk32 5 } rfl rfl (by decide)).2.2.2.2.1 rfl).1⟩

/-! ### The two-half system -/

/-- The slave's record after one event: the master's record if the event is a
successful transmission, the slave's old record otherwise. -/
theorem step_slave_config (sys : Split) (e : Event) :
    (sys.step e).slave.g_spleeb_config =
      if transmits sys e then sys.master.g_spleeb_config else sys.slave.g_spleeb_config := by
  cases e with
  | mutate c => simp [Split.step, transmits]
  | tick env =>
    cases hm : env.is_master
    · simp [Split.step, transmits, deliver, housekeeping_not_master env _ hm]
    · simp only [Split.step, transmits, deliver, housekeeping_master env _ hm]
      cases hok : env.send_ok <;> split_ifs <;>
        simp_all [spleeb_config_sync_handler, ← sizeof_spleeb_config_eq, memcpy_whole,
          of_bytes_bytes_of]

/-- Invariant of a run, for any value `acc` of the record transmitted so far. -/
theorem run_slave_config (evs : List Event) :
    ∀ (sys : Split) (acc : Option spleeb_config_t) (init : spleeb_config_t),
      sys.slave.g_spleeb_config = acc.getD init →
      (sys.run evs).slave.g_spleeb_config = (last_transmitted sys evs acc).getD init := by
  induction evs with
  | nil => intro sys acc init h; simpa [Split.run, last_transmitted] using h
  | cons e evs ih =>
    intro sys acc init h
    have hstep := step_slave_config sys e
    simp only [Split.run, List.foldl_cons, last_transmitted]
    apply ih
    rw [hstep]
    split_ifs <;> simp [h]

/-- C5: in the two-half system, after any finite interleaving of master-side record
mutations and master ticks, the slave's live record is the master's live record as it
was at the most recent successful transmission, or the slave's initial record if no
transmission succeeded; so every field of it comes from that one master record. -/
theorem C5_slave_holds_last_transmitted (sys : Split) (evs : List Event) :
    (sys.run evs).slave.g_spleeb_config
        = (last_transmitted sys evs none).getD sys.slave.g_spleeb_config
    ∧ unpack (sys.run evs).slave.g_spleeb_config
        = unpack ((last_transmitted sys evs none).getD sys.slave.g_spleeb_config) :=
  ⟨run_slave_config evs sys none sys.slave.g_spleeb_config rfl,
    congrArg unpack (run_slave_config evs sys none sys.slave.g_spleeb_config rfl)⟩

/-! ### Drag-scroll accumulators -/

/-- Truncating division by 64, in terms of flooring division. -/
theorem tdiv_64_cases (t : Int) :
    (0 ≤ t ∧ Int.tdiv t 64 = t / 64) ∨ (t < 0 ∧ Int.tdiv t 64 = -((-t) / 64)) := by
  rcases Int.lt_or_le t 0 with h | h
  · right
    refine ⟨h, ?_⟩
    have h1 : Int.tdiv (-t) 64 = (-t) / 64 := Int.tdiv_eq_ediv (by omega) (by decide)
    rw [← h1, Int.neg_tdiv, Int.neg_neg]
  · exact Or.inl ⟨h, Int.tdiv_eq_ediv h (by decide)⟩

/-- One drag-scroll tick, vertical part: the remainder stays below 64 in absolute value
and `64 * v + scroll_y` accounts for the old remainder plus the `y` delta. -/
theorem drag_tick_y (r : report_mouse_t) (s : State)
    (hd : is_dragscroll_enabled s.g_spleeb_config = true)
    (hs : -64 < s.scroll_y ∧ s.scroll_y < 64) (hy : -128 ≤ r.y ∧ r.y ≤ 127) :
    -64 < (pointing_device_task_spleeb r s).2.scroll_y
    ∧ (pointing_device_task_spleeb r s).2.scroll_y < 64
    ∧ -2 ≤ (pointing_device_task_spleeb r s).1.v ∧ (pointing_device_task_spleeb r s).1.v ≤ 2
    ∧ 64 * (pointing_device_task_spleeb r s).1.v + (pointing_device_task_spleeb r s).2.scroll_y
        = s.scroll_y + r.y := by
  simp only [pointing_device_task_spleeb, hd, if_true, to_int16, to_int8,
    SPLEEB_DRAGSCROLL_DIVISOR]
  rcases tdiv_64_cases ((s.scroll_y + r.y + 32768) % 65536 - 32768) with ⟨h0, h1⟩ | ⟨h0, h1⟩ <;>
    rw [h1] <;> omega

/-- One drag-scroll tick, horizontal part: the `x` delta enters with a minus sign. -/
theorem drag_tick_x (r : report_mouse_t) (s : State)
    (hd : is_dragscroll_enabled s.g_spleeb_config = true)
    (hs : -64 < s.scroll_x ∧ s.scroll_x < 64) (hx : -128 ≤ r.x ∧ r.x ≤ 127) :
    -64 < (pointing_device_task_spleeb r s).2.scroll_x
    ∧ (pointing_device_task_spleeb r s).2.scroll_x < 64
    ∧ -2 ≤ (pointing_device_task_spleeb r s).1.h ∧ (pointing_device_task_spleeb r s).1.h ≤ 2
    ∧ 64 * (pointing_device_task_spleeb r s).1.h + (pointing_device_task_spleeb r s).2.scroll_x
        = s.scroll_x - r.x := by
  simp only [pointing_device_task_spleeb, hd, if_true, to_int16, to_int8,
    SPLEEB_DRAGSCROLL_DIVISOR]
  rcases tdiv_64_cases ((s.scroll_x - r.x + 32768) % 65536 - 32768) with ⟨h0, h1⟩ | ⟨h0, h1⟩ <;>
    rw [h1] <;> omega

/-- The drag-scroll tick never writes the configuration record. -/
theorem drag_tick_config (r : report_mouse_t) (s : State) :
    (pointing_device_task_spleeb r s).2.g_spleeb_config = s.g_spleeb_config := by
  unfold pointing_device_task_spleeb
  split_ifs <;> rfl

/-- Vertical accounting over a whole sequence of ticks. -/
theorem feed_reports_y (rs : List report_mouse_t) :
    ∀ s : State, is_dragscroll_enabled s.g_spleeb_config = true →
      (-64 < s.scroll_y ∧ s.scroll_y < 64) →
      (∀ r ∈ rs, -128 ≤ r.y ∧ r.y ≤ 127) →
      -64 < (feed_reports s rs).1.scroll_y ∧ (feed_reports s rs).1.scroll_y < 64
      ∧ 64 * ((feed_reports s rs).2.map report_mouse_t.v).sum + (feed_reports s rs).1.scroll_y
          = s.scroll_y + (rs.map report_mouse_t.y).sum := by
  induction rs with
  | nil => intro s _ hs _; simpa [feed_reports] using hs
  | cons r rs ih =>
    intro s hd hs hy
    have h1 := drag_tick_y r s hd hs (hy r (List.mem_cons_self _ _))
    have hd2 : is_dragscroll_enabled (pointing_device_task_spleeb r s).2.g_spleeb_config = true := by
      rw [drag_tick_config]; exact hd
    have h2 := ih (pointing_device_task_spleeb r s).2 hd2 ⟨h1.1, h1.2.1⟩
      (fun q hq => hy q (List.mem_cons_of_mem _ hq))
    simp only [feed_reports, List.map_cons, List.sum_cons]
    omega

/-- Horizontal accounting over a whole sequence of ticks. -/
theorem feed_reports_x (rs : List report_mouse_t) :
    ∀ s : State, is_dragscroll_enabled s.g_spleeb_config = true →
      (-64 < s.scroll_x ∧ s.scroll_x < 64) →
      (∀ r ∈ rs, -128 ≤ r.x ∧ r.x ≤ 127) →
      -64 < (feed_reports s rs).1.scroll_x ∧ (feed_reports s rs).1.scroll_x < 64
      ∧ 64 * ((feed_reports s rs).2.map report_mouse_t.h).sum + (feed_reports s rs).1.scroll_x
          = s.scroll_x - (rs.map report_mouse_t.x).sum := by
  induction rs with
  | nil => intro s _ hs _; simpa [feed_reports] using hs
  | cons r rs ih =>
    intro s hd hs hx
    have h1 := drag_tick_x r s hd hs (hx r (List.mem_cons_self _ _))
    have hd2 : is_dragscroll_enabled (pointing_device_task_spleeb r s).2.g_spleeb_config = true := by
      rw [drag_tick_config]; exact hd
    have h2 := ih (pointing_device_task_spleeb r s).2 hd2 ⟨h1.1, h1.2.1⟩
      (fun q hq => hx q (List.mem_cons_of_mem _ hq))
    simp only [feed_reports, List.map_cons, List.sum_cons]
    omega

/-- C6: with drag-scroll enabled and `scroll_y` starting at 0, any sequence of reports
whose `y` deltas are `int8_t` values summing to `k * 64` makes the emitted `v` values sum
to exactly `k` and leaves `scroll_y` at 0. -/
theorem C6_vertical_dragscroll_zero_drift (s : State) (rs : List report_mouse_t) (k : Int)
    (hd : is_dragscroll_enabled s.g_spleeb_config = true) (h0 : s.scroll_y = 0)
    (hy : ∀ r ∈ rs, -128 ≤ r.y ∧ r.y ≤ 127)
    (hsum : (rs.map report_mouse_t.y).sum = k * SPLEEB_DRAGSCROLL_DIVISOR) :
    ((feed_reports s rs).2.map report_mouse_t.v).sum = k
    ∧ (feed_reports s rs).1.scroll_y = 0 := by
  have h := feed_reports_y rs s hd (by omega) hy
  simp only [SPLEEB_DRAGSCROLL_DIVISOR] at hsum
  omega

/-- C6 at a concrete input: `y` deltas 100, 28, -127, -127, -2 sum to `-2 * 64`;
the emitted `v` values sum to -2. -/
theorem C6_vertical_dragscroll_witness :
    ((feed_reports { g_spleeb_config := mk32 16777216 }
        [{ y := 100 }, { y := 28 }, { y := -127 }, { y := -127 }, { y := -2 }]).2.map
          report_mouse_t.v).sum = -2
    ∧ (feed_reports { g_spleeb_config := mk32 16777216 }
        [{ y := 100 }, { y := 28 }, { y := -127 }, { y := -127 }, { y := -2 }]).1.scroll_y
        = 0 :=
  C6_vertical_dragscroll_zero_drift { g_spleeb_config := mk32 16777216 }
    [{ y := 100 }, { y := 28 }, { y := -127 }, { y := -127 }, { y := -2 }] (-2)
    (by decide) rfl (by decide) (by decide)

/-- C7 fails as stated: with drag-scroll enabled and `scroll_x = 0`, the single report
with `x = 64` (so `k = 1`) comes out with `h = -1`, not `1`; the remainder is 0. -/
theorem C7_x_64_emits_minus_one :
    (pointing_device_task_spleeb { x := 64 } { g_spleeb_config := mk32 16777216 }).1.h = -1
    ∧ (pointing_device_task_spleeb { x := 64 }
        { g_spleeb_config := mk32 16777216 }).2.scroll_x = 0
    ∧ ((feed_reports { g_spleeb_config := mk32 16777216 } [{ x := 64 }]).2.map
        report_mouse_t.h).sum ≠ 1 := by
  decide

/-- C7 as amended: with drag-scroll enabled and `scroll_x` starting at 0, any sequence of
reports whose `x` deltas are `int8_t` values summing to `k * 64` makes the emitted `h`
values sum to exactly `-k` (the code subtracts `x`) and leaves `scroll_x` at 0; a single
report with `x = 64` yields `h = -1` and `scroll_x = 0`. -/
theorem C7_horizontal_dragscroll_reversed (s : State) (rs : List report_mouse_t) (k : Int)
    (hd : is_dragscroll_enabled s.g_spleeb_config = true) (h0 : s.scroll_x = 0)
    (hx : ∀ r ∈ rs, -128 ≤ r.x ∧ r.x ≤ 127)
    (hsum : (rs.map report_mouse_t.x).sum = k * SPLEEB_DRAGSCROLL_DIVISOR) :
    ((feed_reports s rs).2.map report_mouse_t.h).sum = -k
    ∧ (feed_reports s rs).1.scroll_x = 0
    ∧ (∀ r : report_mouse_t, r.x = 64 →
        (pointing_device_task_spleeb r s).1.h = -1
        ∧ (pointing_device_task_spleeb r s).2.scroll_x = 0) := by
  have h := feed_reports_x rs s hd (by omega) hx
  simp only [SPLEEB_DRAGSCROLL_DIVISOR] at hsum
  refine ⟨by omega, by omega, ?_⟩
  intro r hr
  have h1 := drag_tick_x r s hd (by omega) (by omega)
  omega

/-- C7 (amended) at a concrete input: `x` deltas 100, 28, -64 sum to `1 * 64`; the
emitted `h` values sum to -1. -/
theorem C7_horizontal_dragscroll_witness :
    ((feed_reports { g_spleeb_config := mk32 16777216 }
        [{ x := 100 }, { x := 28 }, { x := -64 }]).2.map report_mouse_t.h).sum = -1
    ∧ (feed_reports { g_spleeb_config := mk32 16777216 }
        [{ x := 100 }, { x := 28 }, { x := -64 }]).1.scroll_x = 0 :=
  ⟨(C7_horizontal_dragscroll_reversed { g_spleeb_config := mk32 16777216 }
      [{ x := 100 }, { x := 28 }, { x := -64 }] 1 (by decide) rfl (by decide) (by decide)).1,
    (C7_horizontal_dragscroll_reversed { g_spleeb_config := mk32 16777216 }
      [{ x := 100 }, { x := 28 }, { x := -64 }] 1 (by decide) rfl (by decide) (by decide)).2.1⟩

/-! ### The packed record -/

/-- Writing `pointer_default_dpi` replaces bits 0..3 and nothing else. -/
theorem set_pointer_default_dpi_slices (c : spleeb_config_t) (v : Int) :
    (set_pointer_default_dpi c v).raw % 16 = (v % 16).toNat
    ∧ (set_pointer_default_dpi c v).raw / 16 = c.raw / 16 := by
  have hc := c.raw_lt
  simp only [set_pointer_default_dpi, mk32_raw]
  omega

/-- Writing `pointer_sniping_dpi` replaces bits 4..5 and nothing else. -/
theorem set_pointer_sniping_dpi_slices (c : spleeb_config_t) (v : Int) :
    (set_pointer_sniping_dpi c v).raw % 16 = c.raw % 16
    ∧ (set_pointer_sniping_dpi c v).raw / 16 % 4 = (v % 4).toNat
    ∧ (set_pointer_sniping_dpi c v).raw / 64 = c.raw / 64 := by
  have hc := c.raw_lt
  simp only [set_pointer_sniping_dpi, mk32_raw]
  omega

/-- Writing `enc_modes[0]` replaces byte 1 and nothing else. -/
theorem set_enc_modes_zero_slices (c : spleeb_config_t) (v : Int) :
    (set_enc_modes c 0 v).raw % 256 = c.raw % 256
    ∧ (set_enc_modes c 0 v).raw / 256 % 256 = (v % 256).toNat
    ∧ (set_enc_modes c 0 v).raw / 65536 = c.raw / 65536 := by
  have hc := c.raw_lt
  simp only [set_enc_modes, if_true, mk32_raw]
  omega

/-- Writing `enc_modes[1]` replaces byte 2 and nothing else. -/
theorem set_enc_modes_one_slices (c : spleeb_config_t) (v : Int) :
    (set_enc_modes c 1 v).raw % 65536 = c.raw % 65536
    ∧ (set_enc_modes c 1 v).raw / 65536 % 256 = (v % 256).toNat
    ∧ (set_enc_modes c 1 v).raw / 16777216 = c.raw / 16777216 := by
  have hc := c.raw_lt
  simp only [set_enc_modes, one_ne_zero, if_false, mk32_raw]
  omega

/-- Writing `is_dragscroll_enabled` replaces bit 24 and nothing else. -/
theorem set_is_dragscroll_enabled_slices (c : spleeb_config_t) (b : Bool) :
    (set_is_dragscroll_enabled c b).raw % 16777216 = c.raw % 16777216
    ∧ (set_is_dragscroll_enabled c b).raw / 16777216 % 2 = (if b then 1 else 0)
    ∧ (set_is_dragscroll_enabled c b).raw / 33554432 = c.raw / 33554432 := by
  have hc := c.raw_lt
  cases b <;> simp only [set_is_dragscroll_enabled, mk32_raw, if_true, if_false,
    Bool.false_eq_true] <;> omega

/-- Writing `is_sniping_enabled` replaces bit 25 and nothing else. -/
theorem set_is_sniping_enabled_slices (c : spleeb_config_t) (b : Bool) :
    (set_is_sniping_enabled c b).raw % 33554432 = c.raw % 33554432
    ∧ (set_is_sniping_enabled c b).raw / 33554432 % 2 = (if b then 1 else 0)
    ∧ (set_is_sniping_enabled c b).raw / 67108864 = c.raw / 67108864 := by
  have hc := c.raw_lt
  cases b <;> simp only [set_is_sniping_enabled, mk32_raw, if_true, if_false,
    Bool.false_eq_true] <;> omega

/-- Two flag bits with the same value read as the same flag. -/
theorem flag_congr {a b : Nat} (h : a % 2 = b % 2) : (a % 2 == 1) = (b % 2 == 1) := by
  rw [h]

/-- A flag bit that was just written reads as written. -/
theorem flag_read {a : Nat} (b : Bool) (h : a % 2 = if b then 1 else 0) :
    (a % 2 == 1) = b := by
  cases b <;> simp_all

theorem unpack_set_pointer_default_dpi (c : spleeb_config_t) (v : Int) :
    unpack (set_pointer_default_dpi c v) = { unpack c with dpi := (v % 16).toNat } := by
  have hc := c.raw_lt
  simp only [set_pointer_default_dpi, mk32_raw, unpack, pointer_default_dpi, pointer_sniping_dpi,
    enc_modes, is_dragscroll_enabled, is_sniping_enabled, if_true, if_false, one_ne_zero,
    Fields.mk.injEq]
  refine ⟨by omega, by omega, by omega, by omega, by omega, flag_congr (by omega),
    flag_congr (by omega), by omega⟩

theorem unpack_set_pointer_sniping_dpi (c : spleeb_config_t) (v : Int) :
    unpack (set_pointer_sniping_dpi c v) = { unpack c with snipe := (v % 4).toNat } := by
  have hc := c.raw_lt
  simp only [set_pointer_sniping_dpi, mk32_raw, unpack, pointer_default_dpi, pointer_sniping_dpi,
    enc_modes, is_dragscroll_enabled, is_sniping_enabled, if_true, if_false, one_ne_zero,
    Fields.mk.injEq]
  refine ⟨by omega, by omega, by omega, by omega, by omega, flag_congr (by omega),
    flag_congr (by omega), by omega⟩

theorem unpack_set_enc_modes_zero (c : spleeb_config_t) (v : Int) :
    unpack (set_enc_modes c 0 v) = { unpack c with enc0 := (v % 256).toNat } := by
  have hc := c.raw_lt
  simp only [set_enc_modes, mk32_raw, unpack, pointer_default_dpi, pointer_sniping_dpi,
    enc_modes, is_dragscroll_enabled, is_sniping_enabled, if_true, if_false, one_ne_zero,
    Fields.mk.injEq]
  refine ⟨by omega, by omega, by omega, by omega, by omega, flag_congr (by omega),
    flag_congr (by omega), by omega⟩

theorem unpack_set_enc_modes_one (c : spleeb_config_t) (v : Int) :
    unpack (set_enc_modes c 1 v) = { unpack c with enc1 := (v % 256).toNat } := by
  have hc := c.raw_lt
  simp only [set_enc_modes, mk32_raw, unpack, pointer_default_dpi, pointer_sniping_dpi,
    enc_modes, is_dragscroll_enabled, is_sniping_enabled, if_true, if_false, one_ne_zero,
    Fields.mk.injEq]
  refine ⟨by omega, by omega, by omega, by omega, by omega, flag_congr (by omega),
    flag_congr (by omega), by omega⟩

theorem unpack_set_is_dragscroll_enabled (c : spleeb_config_t) (b : Bool) :
    unpack (set_is_dragscroll_enabled c b) = { unpack c with drag := b } := by
  have hc := c.raw_lt
  cases b <;>
    simp only [set_is_dragscroll_enabled, mk32_raw, unpack, pointer_default_dpi, pointer_sniping_dpi,
    enc_modes, is_dragscroll_enabled, is_sniping_enabled, if_true, if_false, one_ne_zero,
    Fields.mk.injEq,
      Bool.false_eq_true]
  · exact ⟨by omega, by omega, by omega, by omega, by omega, flag_read false (by show _ = 0; omega),
      flag_congr (by omega), by omega⟩
  · exact ⟨by omega, by omega, by omega, by omega, by omega, flag_read true (by show _ = 1; omega),
      flag_congr (by omega), by omega⟩

theorem unpack_set_is_sniping_enabled (c : spleeb_config_t) (b : Bool) :
    unpack (set_is_sniping_enabled c b) = { unpack c with snp := b } := by
  have hc := c.raw_lt
  cases b <;>
    simp only [set_is_sniping_enabled, mk32_raw, unpack, pointer_default_dpi, pointer_sniping_dpi,
    enc_modes, is_dragscroll_enabled, is_sniping_enabled, if_true, if_false, one_ne_zero,
    Fields.mk.injEq,
      Bool.false_eq_true]
  · exact ⟨by omega, by omega, by omega, by omega, by omega, flag_congr (by omega),
      flag_read false (by show _ = 0; omega), by omega⟩
  · exact ⟨by omega, by omega, by omega, by omega, by omega, flag_congr (by omega),
      flag_read true (by show _ = 1; omega), by omega⟩

/-- The `raw` word is the sum of the members, each shifted to its own bit range. -/
theorem raw_eq_sum (c : spleeb_config_t) :
    c.raw = (unpack c).dpi + 16 * (unpack c).snipe + 64 * (unpack c).pad_lo
      + 256 * (unpack c).enc0 + 65536 * (unpack c).enc1
      + 16777216 * (if (unpack c).drag then 1 else 0)
      + 33554432 * (if (unpack c).snp then 1 else 0) + 67108864 * (unpack c).pad_hi := by
  have e1 : (if is_dragscroll_enabled c then 1 else 0) = c.raw / 16777216 % 2 := by
    simp only [is_dragscroll_enabled, beq_iff_eq]
    split_ifs <;> omega
  have e2 : (if is_sniping_enabled c then 1 else 0) = c.raw / 33554432 % 2 := by
    simp only [is_sniping_enabled, beq_iff_eq]
    split_ifs <;> omega
  simp only [unpack, e1, e2, pointer_default_dpi, pointer_sniping_dpi, enc_modes, if_true,
    if_false, one_ne_zero]
  omega

/-- Every member of a freshly packed object, in one record. -/
theorem unpack_pack (c0 : spleeb_config_t) (dpi snipe enc0 enc1 : Nat) (drag snp : Bool)
    (h1 : dpi < 16) (h2 : snipe < 4) (h3 : enc0 < 256) (h4 : enc1 < 256) :
    unpack (pack c0 dpi snipe enc0 enc1 drag snp)
      = { dpi := dpi, snipe := snipe, pad_lo := c0.raw / 64 % 4, enc0 := enc0, enc1 := enc1,
          drag := drag, snp := snp, pad_hi := c0.raw / 67108864 } := by
  have e1 : ((dpi : Int) % 16).toNat = dpi := by omega
  have e2 : ((snipe : Int) % 4).toNat = snipe := by omega
  have e3 : ((enc0 : Int) % 256).toNat = enc0 := by omega
  have e4 : ((enc1 : Int) % 256).toNat = enc1 := by omega
  simp only [pack, unpack_set_is_sniping_enabled, unpack_set_is_dragscroll_enabled,
    unpack_set_enc_modes_one, unpack_set_enc_modes_zero, unpack_set_pointer_sniping_dpi,
    unpack_set_pointer_default_dpi, e1, e2, e3, e4]
  rfl

/-- C8: assigning the six members of a `spleeb_config_t` object (whatever its bytes
were before) and reading them back reproduces every value exactly, for every index of
the default DPI below 16, index of the sniper DPI below 4, encoder modes below 256 and
both flags; the `raw` word is the sum of the members shifted to pairwise disjoint bit
ranges (0..3, 4..5, 8..15, 16..23, 24, 25) plus the untouched padding bits. -/
theorem C8_pack_unpack (c0 : spleeb_config_t) (dpi snipe enc0 enc1 : Nat) (drag snp : Bool)
    (h1 : dpi < 16) (h2 : snipe < 4) (h3 : enc0 < 256) (h4 : enc1 < 256) :
    pointer_default_dpi (pack c0 dpi snipe enc0 enc1 drag snp) = dpi
    ∧ pointer_sniping_dpi (pack c0 dpi snipe enc0 enc1 drag snp) = snipe
    ∧ enc_modes (pack c0 dpi snipe enc0 enc1 drag snp) 0 = enc0
    ∧ enc_modes (pack c0 dpi snipe enc0 enc1 drag snp) 1 = enc1
    ∧ is_dragscroll_enabled (pack c0 dpi snipe enc0 enc1 drag snp) = drag
    ∧ is_sniping_enabled (pack c0 dpi snipe enc0 enc1 drag snp) = snp
    ∧ (pack c0 dpi snipe enc0 enc1 drag snp).raw
        = dpi + 16 * snipe + 256 * enc0 + 65536 * enc1
          + 16777216 * (if drag then 1 else 0) + 33554432 * (if snp then 1 else 0)
          + 64 * (c0.raw / 64 % 4) + 67108864 * (c0.raw / 67108864) := by
  have h := unpack_pack c0 dpi snipe enc0 enc1 drag snp h1 h2 h3 h4
  have hr := raw_eq_sum (pack c0 dpi snipe enc0 enc1 drag snp)
  rw [h] at hr
  refine ⟨congrArg Fields.dpi h, congrArg Fields.snipe h, congrArg Fields.enc0 h,
    congrArg Fields.enc1 h, congrArg Fields.drag h, congrArg Fields.snp h, ?_⟩
  rw [hr]
  simp only []
  omega

/-- C8 at a concrete input: the tuple (15, 3, 255, 255, true, true) packed into a zeroed
object gives the raw word `0x03FFFF3F`. -/
theorem C8_pack_unpack_witness :
    (pack zero_config 15 3 255 255 true true).raw = 67108671
    ∧ is_sniping_enabled (pack zero_config 15 3 255 255 true true) = true :=
  ⟨((C8_pack_unpack zero_config 15 3 255 255 true true (by decide) (by decide) (by decide)
      (by decide)).2.2.2.2.2.2).trans (by decide),
    (C8_pack_unpack zero_config 15 3 255 255 true true (by decide) (by decide) (by decide)
      (by decide)).2.2.2.2.2.1⟩

/-! ### Pointer DPI -/

/-- C9: for every record the default DPI is `pointer_default_dpi * 100 + 300`, between 300
and 1800, the sniper DPI is `pointer_sniping_dpi * 100 + 100`, between 100 and 400,
neither computation exceeds the `uint16_t` range, and `get_pointer_current_dpi` is the
sniper value when `is_sniping_enabled` is set and the default value otherwise. -/
theorem C9_dpi_values (s : State) :
    spleeb_get_pointer_default_dpi s = pointer_default_dpi s.g_spleeb_config * 100 + 300
    ∧ 300 ≤ spleeb_get_pointer_default_dpi s ∧ spleeb_get_pointer_default_dpi s ≤ 1800
    ∧ spleeb_get_pointer_sniping_dpi s = pointer_sniping_dpi s.g_spleeb_config * 100 + 100
    ∧ 100 ≤ spleeb_get_pointer_sniping_dpi s ∧ spleeb_get_pointer_sniping_dpi s ≤ 400
    ∧ pointer_default_dpi s.g_spleeb_config * SPLEEB_DEFAULT_DPI_CONFIG_STEP
        + SPLEEB_MINIMUM_DEFAULT_DPI < 65536
    ∧ pointer_sniping_dpi s.g_spleeb_config * SPLEEB_SNIPING_DPI_CONFIG_STEP
        + SPLEEB_MINIMUM_SNIPING_DPI < 65536
    ∧ (is_sniping_enabled s.g_spleeb_config = true →
        get_pointer_current_dpi s.g_spleeb_config = spleeb_get_pointer_sniping_dpi s)
    ∧ (is_sniping_enabled s.g_spleeb_config = false →
        get_pointer_current_dpi s.g_spleeb_config = spleeb_get_pointer_default_dpi s) := by
  have hi : pointer_default_dpi s.g_spleeb_config < 16 := Nat.mod_lt _ (by decide)
  have hj : pointer_sniping_dpi s.g_spleeb_config < 4 := Nat.mod_lt _ (by decide)
  have e1 : (pointer_default_dpi s.g_spleeb_config * 100 + 300) % 65536
      = pointer_default_dpi s.g_spleeb_config * 100 + 300 := Nat.mod_eq_of_lt (by omega)
  have e2 : (pointer_sniping_dpi s.g_spleeb_config * 100 + 100) % 65536
      = pointer_sniping_dpi s.g_spleeb_config * 100 + 100 := Nat.mod_eq_of_lt (by omega)
  simp only [spleeb_get_pointer_default_dpi, spleeb_get_pointer_sniping_dpi,
    get_pointer_default_dpi, get_pointer_sniping_dpi, get_pointer_current_dpi,
    SPLEEB_DEFAULT_DPI_CONFIG_STEP, SPLEEB_MINIMUM_DEFAULT_DPI,
    SPLEEB_SNIPING_DPI_CONFIG_STEP, SPLEEB_MINIMUM_SNIPING_DPI, e1, e2]
  refine ⟨trivial, by omega, by omega, trivial, by omega, by omega, by omega, by omega,
    fun h => by simp [h], fun h => by simp [h]⟩

/-- C9 at a concrete input: with sniper mode on and sniper index 3 the effective DPI is
400, although the default index 15 stands for 1800. -/
theorem C9_dpi_values_witness :
    get_pointer_current_dpi (pack zero_config 15 3 0 0 false true) = 400
    ∧ spleeb_get_pointer_default_dpi
        { g_spleeb_config := pack zero_config 15 3 0 0 false true } = 1800 :=
  ⟨((C9_dpi_values { g_spleeb_config := pack zero_config 15 3 0 0 false true }).2.2.2.2.2.2.2.2.1
      (by decide)).trans (by decide),
    (C9_dpi_values { g_spleeb_config := pack zero_config 15 3 0 0 false true }).1.trans
      (by decide)⟩

/-- The index of the default DPI after one step, and the members it leaves alone. -/
theorem step_pointer_default_dpi_index (c : spleeb_config_t) (forward : Bool) (s : State) :
    pointer_default_dpi (step_pointer_default_dpi c forward s).1
      = (pointer_default_dpi c + (if forward then 1 else 15)) % 16 := by
  have h := set_pointer_default_dpi_slices c
    ((pointer_default_dpi c : Int) + (if forward then 1 else -1))
  simp only [step_pointer_default_dpi, pointer_default_dpi] at h ⊢
  rw [h.1]
  cases forward <;> simp only [if_true, if_false, Bool.false_eq_true] <;> omega

/-- C10 fails as stated: from the power-on record (index 0, 300 DPI) one backward step
gives index 15 and 1800 DPI, not 200; from index 15 (1800 DPI) one forward step gives
index 0 and 300 DPI, not 1900. -/
theorem C10_step_wraps_at_the_ends :
    spleeb_get_pointer_default_dpi ({} : State) = 300
    ∧ pointer_default_dpi
        (spleeb_cycle_pointer_default_dpi false ({} : State)).g_spleeb_config = 15
    ∧ spleeb_get_pointer_default_dpi
        (spleeb_cycle_pointer_default_dpi false ({} : State)) = 1800
    ∧ spleeb_get_pointer_default_dpi ({ g_spleeb_config := mk32 15 } : State) = 1800
    ∧ spleeb_get_pointer_default_dpi
        (spleeb_cycle_pointer_default_dpi true { g_spleeb_config := mk32 15 }) = 300 := by
  decide

/-- C10 as amended: `spleeb_cycle_pointer_default_dpi(true)` raises the default DPI by
exactly 100 when the index is below 15 and `spleeb_cycle_pointer_default_dpi(false)`
lowers it by exactly 100 when the index is above 0; at the ends the 4-bit index wraps:
forward from index 15 gives index 0 (300 DPI) and backward from index 0 gives index 15
(1800 DPI). -/
theorem C10_cycle_default_dpi (s : State) :
    (pointer_default_dpi s.g_spleeb_config < 15 →
      spleeb_get_pointer_default_dpi (spleeb_cycle_pointer_default_dpi true s)
        = spleeb_get_pointer_default_dpi s + SPLEEB_DEFAULT_DPI_CONFIG_STEP)
    ∧ (0 < pointer_default_dpi s.g_spleeb_config →
      spleeb_get_pointer_default_dpi (spleeb_cycle_pointer_default_dpi false s)
          + SPLEEB_DEFAULT_DPI_CONFIG_STEP
        = spleeb_get_pointer_default_dpi s)
    ∧ (pointer_default_dpi s.g_spleeb_config = 15 →
      pointer_default_dpi (spleeb_cycle_pointer_default_dpi true s).g_spleeb_config = 0
      ∧ spleeb_get_pointer_default_dpi (spleeb_cycle_pointer_default_dpi true s) = 300)
    ∧ (pointer_default_dpi s.g_spleeb_config = 0 →
      pointer_default_dpi (spleeb_cycle_pointer_default_dpi false s).g_spleeb_config = 15
      ∧ spleeb_get_pointer_default_dpi (spleeb_cycle_pointer_default_dpi false s) = 1800) := by
  have hf := step_pointer_default_dpi_index s.g_spleeb_config true s
  have hb := step_pointer_default_dpi_index s.g_spleeb_config false s
  have hlt : pointer_default_dpi s.g_spleeb_config < 16 := Nat.mod_lt _ (by decide)
  simp only [if_true, if_false, Bool.false_eq_true] at hf hb
  simp only [spleeb_get_pointer_default_dpi, spleeb_cycle_pointer_default_dpi,
    write_spleeb_config_to_eeprom, eeconfig_update_kb, get_pointer_default_dpi,
    SPLEEB_DEFAULT_DPI_CONFIG_STEP, SPLEEB_MINIMUM_DEFAULT_DPI, hf, hb]
  generalize pointer_default_dpi s.g_spleeb_config = i at *
  clear hf hb
  interval_cases i <;> decide

/-- C10 (amended) at a concrete input: index 4 (700 DPI) steps forward to 800 DPI and
backward to 600 DPI. -/
theorem C10_cycle_default_dpi_witness :
    spleeb_get_pointer_default_dpi
        (spleeb_cycle_pointer_default_dpi true { g_spleeb_config := mk32 4 }) = 800
    ∧ spleeb_get_pointer_default_dpi
        (spleeb_cycle_pointer_default_dpi false { g_spleeb_config := mk32 4 }) + 100 = 700 :=
  ⟨((C10_cycle_default_dpi { g_spleeb_config := mk32 4 }).1 (by decide)).trans (by decide),
    ((C10_cycle_default_dpi { g_spleeb_config := mk32 4 }).2.1 (by decide)).trans (by decide)⟩

/-! ### Factory defaults and encoder modes -/

/-- Closed form of `maybe_update_pointing_device_cpi`: only the device CPI can change. -/
theorem maybe_update_eq (c : spleeb_config_t) (s : State) :
    maybe_update_pointing_device_cpi c s =
      { s with cpi :=
          if is_dragscroll_enabled c then s.cpi
          else if is_sniping_enabled c then get_pointer_sniping_dpi c
          else get_pointer_default_dpi c } := by
  unfold maybe_update_pointing_device_cpi pointing_device_set_cpi
  split_ifs <;> simp [get_pointer_sniping_dpi, get_pointer_default_dpi]

/-- The record written by the factory-reset hook, as a closed term. -/
theorem eeconfig_init_kb_eq (s : State) :
    eeconfig_init_kb s = { s with g_spleeb_config := mk32 4, eeprom := 4 } := by
  have h : set_enc_modes (set_enc_modes (set_pointer_default_dpi (mk32 0) 4) 0 0) 1 0
      = mk32 4 := by decide
  have hr : List.range NUM_ENCODERS = [0, 1] := by decide
  simp only [eeconfig_init_kb, hr, List.foldl_cons, List.foldl_nil, h,
    write_spleeb_config_to_eeprom, eeconfig_update_kb]
  rfl

/-- C11, the code at any prior state: `eeconfig_init_kb` leaves index 4 for the default
DPI, index 0 for the sniper DPI, both flags false, the right encoder at
`ENCODER_DEFAULT_DPI` and the raw word in EEPROM, but the left encoder mode
`enc_modes[0]` is 0 (`ENCODER_DEFAULT_DPI`), not `__ENC_L_START` = `ENCODER_VOLUME` = 3,
so a turn of the left encoder taps nothing. -/
theorem C11_init_left_encoder_mode_is_zero (s : State) :
    pointer_default_dpi (eeconfig_init_kb s).g_spleeb_config = 4
    ∧ pointer_sniping_dpi (eeconfig_init_kb s).g_spleeb_config = 0
    ∧ is_dragscroll_enabled (eeconfig_init_kb s).g_spleeb_config = false
    ∧ is_sniping_enabled (eeconfig_init_kb s).g_spleeb_config = false
    ∧ enc_modes (eeconfig_init_kb s).g_spleeb_config 1 = ENCODER_DEFAULT_DPI
    ∧ (eeconfig_init_kb s).eeprom = (eeconfig_init_kb s).g_spleeb_config.raw
    ∧ enc_modes (eeconfig_init_kb s).g_spleeb_config 0 = 0
    ∧ enc_modes (eeconfig_init_kb s).g_spleeb_config 0 ≠ __ENC_L_START
    ∧ __ENC_L_START = ENCODER_VOLUME
    ∧ (∀ clockwise, (encoder_update_kb true 0 clockwise (eeconfig_init_kb s)).2.taps
        = s.taps) := by
  rw [eeconfig_init_kb_eq]
  dsimp only
  refine ⟨by decide, by decide, by decide, by decide, by decide, by decide, by decide,
    by decide, by decide, ?_⟩
  intro clockwise
  have h : enc_modes (mk32 4) 0 = 0 := by decide
  simp [encoder_update_kb, h, ENCODER_VOLUME]

/-- The right encoder mode after one step. -/
theorem right_enc_next (m : Nat) :
    ((Int.tmod ((m : Int) + 1) (_NUM_R_MODES : Int)) % 256).toNat = (m + 1) % 2 := by
  have h : Int.tmod ((m : Int) + 1) (_NUM_R_MODES : Int) = ((m : Int) + 1) % 2 :=
    Int.tmod_eq_emod (by omega) (by decide)
  rw [h]
  omega

/-- The left encoder mode after one step, whatever it was. -/
theorem left_enc_next (m : Nat) :
    (((__ENC_L_START : Int)
      + Int.tmod (((m : Int) - (__ENC_L_START : Int)) + 1)
          ((_NUM_L_MODES : Int) - (__ENC_L_START : Int))) % 256).toNat = 3 := by
  have h : (_NUM_L_MODES : Int) - (__ENC_L_START : Int) = 1 := by decide
  rw [h, Int.tmod_one]
  decide

/-- C12: `step_spleeb_right_enc` replaces the right encoder mode `m` by `(m + 1) % 2`:
0 becomes 1, 1 becomes 0, two steps give back a mode 0 or 1, and every stored 8-bit
value lands in 0 or 1; no other member of the record changes and the EEPROM receives
the raw word of the updated record. -/
theorem C12_right_encoder_cycles (config : spleeb_config_t) (s : State) :
    enc_modes (step_spleeb_right_enc config s).1 1 = (enc_modes config 1 + 1) % _NUM_R_MODES
    ∧ (enc_modes config 1 = 0 → enc_modes (step_spleeb_right_enc config s).1 1 = 1)
    ∧ (enc_modes config 1 = 1 → enc_modes (step_spleeb_right_enc config s).1 1 = 0)
    ∧ (enc_modes config 1 < 2 →
        enc_modes (step_spleeb_right_enc (step_spleeb_right_enc config s).1
          (step_spleeb_right_enc config s).2).1 1 = enc_modes config 1)
    ∧ (enc_modes (step_spleeb_right_enc config s).1 1 = 0
        ∨ enc_modes (step_spleeb_right_enc config s).1 1 = 1)
    ∧ unpack (step_spleeb_right_enc config s).1
        = { unpack config with enc1 := (enc_modes config 1 + 1) % _NUM_R_MODES }
    ∧ (step_spleeb_right_enc config s).2
        = { s with eeprom := (step_spleeb_right_enc config s).1.raw } := by
  have hu : ∀ (c : spleeb_config_t) (t : State), unpack (step_spleeb_right_enc c t).1
      = { unpack c with enc1 := (enc_modes c 1 + 1) % 2 } := by
    intro c t
    simp only [step_spleeb_right_enc, unpack_set_enc_modes_one, right_enc_next]
  have h1 : ∀ (c : spleeb_config_t) (t : State),
      enc_modes (step_spleeb_right_enc c t).1 1 = (enc_modes c 1 + 1) % 2 :=
    fun c t => congrArg Fields.enc1 (hu c t)
  have hlt := (step_spleeb_right_enc config s).1.raw_lt
  refine ⟨h1 config s, fun h => ?_, fun h => ?_, fun h => ?_, ?_, hu config s, ?_⟩
  · rw [h1, h]
  · rw [h1, h]
  · rw [h1, h1]; omega
  · rw [h1]; omega
  · simp only [step_spleeb_right_enc, write_spleeb_config_to_eeprom, eeconfig_update_kb]
    rw [Nat.mod_eq_of_lt (by simpa [step_spleeb_right_enc] using hlt)]

/-- C12 at a concrete input: stored mode 0 becomes 1, stored mode 255 becomes 0. -/
theorem C12_right_encoder_cycles_witness :
    enc_modes (step_spleeb_right_enc (mk32 4) {}).1 1 = 1
    ∧ enc_modes (step_spleeb_right_enc (mk32 16711680) {}).1 1 = 0 :=
  ⟨(C12_right_encoder_cycles (mk32 4) {}).2.1 (by decide),
    (C12_right_encoder_cycles (mk32 16711680) {}).1.trans (by decide)⟩

/-- C13 fails as stated: the left range has `_NUM_L_MODES - __ENC_L_START` = 1 mode, not
2, and from the first left mode (3, in byte 1 of the raw word) one step gives mode 3
again, not a different mode. -/
theorem C13_left_range_has_one_mode :
    _NUM_L_MODES - __ENC_L_START = 1
    ∧ enc_modes (mk32 768) 0 = __ENC_L_START
    ∧ enc_modes (step_spleeb_left_enc (mk32 768) {}).1 0 = enc_modes (mk32 768) 0 := by
  decide

/-- C13 as amended: the left encoder has a range of one mode, `ENCODER_VOLUME` =
`__ENC_L_START` = 3, disjoint from the right encoder's modes (all below `_NUM_R_MODES`);
`step_spleeb_left_enc` cycles modulo that size 1, so from every stored mode (the first
left mode included) one step gives `ENCODER_VOLUME`, a second step gives it again, no
other member changes and the record is written to EEPROM. -/
theorem C13_left_encoder_single_mode (config : spleeb_config_t) (s : State) :
    _NUM_L_MODES - __ENC_L_START = 1
    ∧ __ENC_L_START = ENCODER_VOLUME
    ∧ ENCODER_DEFAULT_DPI < _NUM_R_MODES ∧ ENCODER_SNIPING_DPI < _NUM_R_MODES
    ∧ _NUM_R_MODES < __ENC_L_START
    ∧ enc_modes (step_spleeb_left_enc config s).1 0 = ENCODER_VOLUME
    ∧ enc_modes (step_spleeb_left_enc (step_spleeb_left_enc config s).1
        (step_spleeb_left_enc config s).2).1 0 = ENCODER_VOLUME
    ∧ unpack (step_spleeb_left_enc config s).1 = { unpack config with enc0 := ENCODER_VOLUME }
    ∧ (step_spleeb_left_enc config s).2
        = { s with eeprom := (step_spleeb_left_enc config s).1.raw } := by
  have hu : ∀ (c : spleeb_config_t) (t : State), unpack (step_spleeb_left_enc c t).1
      = { unpack c with enc0 := 3 } := by
    intro c t
    simp only [step_spleeb_left_enc, unpack_set_enc_modes_zero, left_enc_next]
  have h1 : ∀ (c : spleeb_config_t) (t : State),
      enc_modes (step_spleeb_left_enc c t).1 0 = 3 :=
    fun c t => congrArg Fields.enc0 (hu c t)
  have hlt := (step_spleeb_left_enc config s).1.raw_lt
  refine ⟨by decide, by decide, by decide, by decide, by decide, h1 config s, h1 _ _,
    hu config s, ?_⟩
  simp only [step_spleeb_left_enc, write_spleeb_config_to_eeprom, eeconfig_update_kb]
  rw [Nat.mod_eq_of_lt (by simpa [step_spleeb_left_enc] using hlt)]

/-! ### State operations, member by member -/

/-- The sniper index after one step. -/
theorem step_pointer_sniping_dpi_index (c : spleeb_config_t) (forward : Bool) (s : State) :
    pointer_sniping_dpi (step_pointer_sniping_dpi c forward s).1
      = (pointer_sniping_dpi c + (if forward then 1 else 3)) % 4 := by
  have h := set_pointer_sniping_dpi_slices c
    ((pointer_sniping_dpi c : Int) + (if forward then 1 else -1))
  simp only [step_pointer_sniping_dpi, pointer_sniping_dpi] at h ⊢
  rw [h.2.1]
  cases forward <;> simp only [if_true, if_false, Bool.false_eq_true] <;> omega

/-- Stepping the default index touches no other member. -/
theorem unpack_step_pointer_default_dpi (c : spleeb_config_t) (forward : Bool) (s : State) :
    unpack (step_pointer_default_dpi c forward s).1
      = { unpack c with dpi := (pointer_default_dpi c + (if forward then 1 else 15)) % 16 } := by
  have h := step_pointer_default_dpi_index c forward s
  simp only [step_pointer_default_dpi, unpack_set_pointer_default_dpi] at h ⊢
  have h2 := congrArg Fields.dpi (unpack_set_pointer_default_dpi c
    ((pointer_default_dpi c : Int) + (if forward then 1 else -1)))
  simp only [unpack] at h2
  rw [← h, h2]

/-- Stepping the sniper index touches no other member. -/
theorem unpack_step_pointer_sniping_dpi (c : spleeb_config_t) (forward : Bool) (s : State) :
    unpack (step_pointer_sniping_dpi c forward s).1
      = { unpack c with snipe := (pointer_sniping_dpi c + (if forward then 1 else 3)) % 4 } := by
  have h := step_pointer_sniping_dpi_index c forward s
  simp only [step_pointer_sniping_dpi, unpack_set_pointer_sniping_dpi] at h ⊢
  have h2 := congrArg Fields.snipe (unpack_set_pointer_sniping_dpi c
    ((pointer_sniping_dpi c : Int) + (if forward then 1 else -1)))
  simp only [unpack] at h2
  rw [← h, h2]

/-- Closed form of `spleeb_cycle_pointer_default_dpi`. -/
theorem cycle_default_eq (forward : Bool) (s : State) :
    spleeb_cycle_pointer_default_dpi forward s =
      { s with
        g_spleeb_config := (step_pointer_default_dpi s.g_spleeb_config forward s).1
        eeprom := (step_pointer_default_dpi s.g_spleeb_config forward s).1.raw
        cpi := (maybe_update_pointing_device_cpi
          (step_pointer_default_dpi s.g_spleeb_config forward s).1 s).cpi } := by
  have hlt := (step_pointer_default_dpi s.g_spleeb_config forward s).1.raw_lt
  simp only [spleeb_cycle_pointer_default_dpi, write_spleeb_config_to_eeprom,
    eeconfig_update_kb, Nat.mod_eq_of_lt hlt]
  simp only [step_pointer_default_dpi, maybe_update_eq]

/-- Closed form of `spleeb_cycle_pointer_sniping_dpi`. -/
theorem cycle_sniping_eq (forward : Bool) (s : State) :
    spleeb_cycle_pointer_sniping_dpi forward s =
      { s with
        g_spleeb_config := (step_pointer_sniping_dpi s.g_spleeb_config forward s).1
        eeprom := (step_pointer_sniping_dpi s.g_spleeb_config forward s).1.raw
        cpi := (maybe_update_pointing_device_cpi
          (step_pointer_sniping_dpi s.g_spleeb_config forward s).1 s).cpi } := by
  have hlt := (step_pointer_sniping_dpi s.g_spleeb_config forward s).1.raw_lt
  simp only [spleeb_cycle_pointer_sniping_dpi, write_spleeb_config_to_eeprom,
    eeconfig_update_kb, Nat.mod_eq_of_lt hlt]
  simp only [step_pointer_sniping_dpi, maybe_update_eq]

/-- Closed form of `spleeb_set_pointer_sniping_enabled`. -/
theorem set_sniping_eq (enable : Bool) (s : State) :
    spleeb_set_pointer_sniping_enabled enable s =
      { s with
        g_spleeb_config := set_is_sniping_enabled s.g_spleeb_config enable
        cpi := (maybe_update_pointing_device_cpi
          (set_is_sniping_enabled s.g_spleeb_config enable) s).cpi } := by
  simp only [spleeb_set_pointer_sniping_enabled, maybe_update_eq]

/-- Closed form of `spleeb_set_pointer_dragscroll_enabled`. -/
theorem set_dragscroll_eq (enable : Bool) (s : State) :
    spleeb_set_pointer_dragscroll_enabled enable s =
      { s with
        g_spleeb_config := set_is_dragscroll_enabled s.g_spleeb_config enable
        cursor_glide := enable
        cpi := (maybe_update_pointing_device_cpi
          (set_is_dragscroll_enabled s.g_spleeb_config enable) s).cpi } := by
  simp only [spleeb_set_pointer_dragscroll_enabled, cirque_pinnacle_enable_cursor_glide,
    maybe_update_eq]

/-- One step of the right encoder mode touches no other member. -/
theorem unpack_step_spleeb_right_enc (c : spleeb_config_t) (s : State) :
    unpack (step_spleeb_right_enc c s).1
      = { unpack c with enc1 := (enc_modes c 1 + 1) % 2 } := by
  simp only [step_spleeb_right_enc, unpack_set_enc_modes_one, right_enc_next]

/-- One step of the left encoder mode touches no other member. -/
theorem unpack_step_spleeb_left_enc (c : spleeb_config_t) (s : State) :
    unpack (step_spleeb_left_enc c s).1 = { unpack c with enc0 := 3 } := by
  simp only [step_spleeb_left_enc, unpack_set_enc_modes_zero, left_enc_next]

/-- The state after `step_spleeb_right_enc`: only the EEPROM word changes. -/
theorem step_spleeb_right_enc_state (c : spleeb_config_t) (s : State) :
    (step_spleeb_right_enc c s).2 = { s with eeprom := (step_spleeb_right_enc c s).1.raw } := by
  have hlt := (step_spleeb_right_enc c s).1.raw_lt
  simp only [step_spleeb_right_enc, write_spleeb_config_to_eeprom, eeconfig_update_kb]
  rw [Nat.mod_eq_of_lt (by simpa [step_spleeb_right_enc] using hlt)]

/-- The state after `step_spleeb_left_enc`: only the EEPROM word changes. -/
theorem step_spleeb_left_enc_state (c : spleeb_config_t) (s : State) :
    (step_spleeb_left_enc c s).2 = { s with eeprom := (step_spleeb_left_enc c s).1.raw } := by
  have hlt := (step_spleeb_left_enc c s).1.raw_lt
  simp only [step_spleeb_left_enc, write_spleeb_config_to_eeprom, eeconfig_update_kb]
  rw [Nat.mod_eq_of_lt (by simpa [step_spleeb_left_enc] using hlt)]

/-! ### Encoder turns -/

/-- C14: `encoder_update_kb` returns what `encoder_update_user` returned.  When that is
false nothing happens.  When it is true: on index 1, mode `ENCODER_DEFAULT_DPI` runs
`spleeb_cycle_pointer_default_dpi(clockwise)` (index one step forward iff clockwise,
written to EEPROM), mode `ENCODER_SNIPING_DPI` does the same to the sniper index, any
other mode changes nothing; on index 0, mode `ENCODER_VOLUME` taps `KC_VOLU` when
clockwise and `KC_VOLD` otherwise, any other mode changes nothing, and the record and
the EEPROM are never touched. -/
theorem C14_encoder_dispatch (index : Nat) (clockwise : Bool) (s : State) :
    encoder_update_kb false index clockwise s = (false, s)
    ∧ (encoder_update_kb true index clockwise s).1 = true
    ∧ (index = 1 → enc_modes s.g_spleeb_config 1 = ENCODER_DEFAULT_DPI →
        (encoder_update_kb true index clockwise s).2
            = spleeb_cycle_pointer_default_dpi clockwise s
        ∧ unpack (encoder_update_kb true index clockwise s).2.g_spleeb_config
            = { unpack s.g_spleeb_config with
                dpi := (pointer_default_dpi s.g_spleeb_config
                  + (if clockwise then 1 else 15)) % 16 }
        ∧ (encoder_update_kb true index clockwise s).2.eeprom
            = (encoder_update_kb true index clockwise s).2.g_spleeb_config.raw)
    ∧ (index = 1 → enc_modes s.g_spleeb_config 1 = ENCODER_SNIPING_DPI →
        (encoder_update_kb true index clockwise s).2
            = spleeb_cycle_pointer_sniping_dpi clockwise s
        ∧ unpack (encoder_update_kb true index clockwise s).2.g_spleeb_config
            = { unpack s.g_spleeb_config with
                snipe := (pointer_sniping_dpi s.g_spleeb_config
                  + (if clockwise then 1 else 3)) % 4 }
        ∧ (encoder_update_kb true index clockwise s).2.eeprom
            = (encoder_update_kb true index clockwise s).2.g_spleeb_config.raw)
    ∧ (index = 1 → enc_modes s.g_spleeb_config 1 ≠ ENCODER_DEFAULT_DPI →
        enc_modes s.g_spleeb_config 1 ≠ ENCODER_SNIPING_DPI →
        (encoder_update_kb true index clockwise s).2 = s)
    ∧ (index = 0 → enc_modes s.g_spleeb_config 0 = ENCODER_VOLUME →
        (encoder_update_kb true index clockwise s).2
          = { s with taps := (if clockwise then KC_VOLU else KC_VOLD) :: s.taps })
    ∧ (index = 0 → enc_modes s.g_spleeb_config 0 ≠ ENCODER_VOLUME →
        (encoder_update_kb true index clockwise s).2 = s)
    ∧ (index = 0 →
        (encoder_update_kb true index clockwise s).2.g_spleeb_config = s.g_spleeb_config
        ∧ (encoder_update_kb true index clockwise s).2.eeprom = s.eeprom) := by
  refine ⟨rfl, rfl, ?_, ?_, ?_, ?_, ?_, ?_⟩
  · intro hi hm
    have e : (encoder_update_kb true index clockwise s).2
        = spleeb_cycle_pointer_default_dpi clockwise s := by
      simp [encoder_update_kb, hi, hm]
    rw [e]
    refine ⟨rfl, ?_, ?_⟩
    · rw [cycle_default_eq]
      exact unpack_step_pointer_default_dpi s.g_spleeb_config clockwise s
    · rw [cycle_default_eq]
  · intro hi hm
    have e : (encoder_update_kb true index clockwise s).2
        = spleeb_cycle_pointer_sniping_dpi clockwise s := by
      simp [encoder_update_kb, hi, hm, ENCODER_SNIPING_DPI, ENCODER_DEFAULT_DPI]
    rw [e]
    refine ⟨rfl, ?_, ?_⟩
    · rw [cycle_sniping_eq]
      exact unpack_step_pointer_sniping_dpi s.g_spleeb_config clockwise s
    · rw [cycle_sniping_eq]
  · intro hi h1 h2
    simp [encoder_update_kb, hi, h1, h2]
  · intro hi hm
    simp [encoder_update_kb, hi, hm, tap_code]
  · intro hi hm
    simp [encoder_update_kb, hi, hm]
  · intro hi
    by_cases hm : enc_modes s.g_spleeb_config 0 = ENCODER_VOLUME <;>
      simp [encoder_update_kb, hi, hm, tap_code]

/-- C14 at a concrete input: right encoder in mode 0, index 4, turned clockwise gives
index 5; left encoder in mode 3 turned counter-clockwise taps `KC_VOLD`. -/
theorem C14_encoder_dispatch_witness :
    pointer_default_dpi (encoder_update_kb true 1 true
        { g_spleeb_config := mk32 772 }).2.g_spleeb_config = 5
    ∧ (encoder_update_kb true 0 false { g_spleeb_config := mk32 772 }).2.taps = [KC_VOLD] :=
  ⟨(congrArg Fields.dpi
      ((C14_encoder_dispatch 1 true { g_spleeb_config := mk32 772 }).2.2.1 rfl
        (by decide)).2.1).trans (by decide),
    (congrArg State.taps
      ((C14_encoder_dispatch 0 false { g_spleeb_config := mk32 772 }).2.2.2.2.2.1 rfl
        (by decide))).trans (by decide)⟩

/-! ### Key events -/

/-- What each custom key does once `process_record_user` has let the event through. -/
theorem process_record_kb_keys (b : Nat) (p : Bool) (s : State) :
    (process_record_kb b true (POINTER_DEFAULT_DPI_FORWARD b) p s).2
        = (if p then spleeb_cycle_pointer_default_dpi true s else s)
    ∧ (process_record_kb b true (POINTER_DEFAULT_DPI_REVERSE b) p s).2
        = (if p then spleeb_cycle_pointer_default_dpi false s else s)
    ∧ (process_record_kb b true (POINTER_SNIPING_DPI_FORWARD b) p s).2
        = (if p then spleeb_cycle_pointer_sniping_dpi true s else s)
    ∧ (process_record_kb b true (POINTER_SNIPING_DPI_REVERSE b) p s).2
        = (if p then spleeb_cycle_pointer_sniping_dpi false s else s)
    ∧ (process_record_kb b true (SNIPING_MODE b) p s).2
        = spleeb_set_pointer_sniping_enabled p s
    ∧ (process_record_kb b true (SNIPING_MODE_TOGGLE b) p s).2
        = (if p then
            spleeb_set_pointer_sniping_enabled (!is_sniping_enabled s.g_spleeb_config) s
          else s)
    ∧ (process_record_kb b true (DRAGSCROLL_MODE b) p s).2
        = spleeb_set_pointer_dragscroll_enabled p s
    ∧ (process_record_kb b true (DRAGSCROLL_MODE_TOGGLE b) p s).2
        = (if p then
            spleeb_set_pointer_dragscroll_enabled (!is_dragscroll_enabled s.g_spleeb_config) s
          else s)
    ∧ (process_record_kb b true (ENC_MODE_LEFT_TOGGLE b) p s).2
        = (if p then
            { s with g_spleeb_config := (step_spleeb_left_enc s.g_spleeb_config s).1
                     eeprom := (step_spleeb_left_enc s.g_spleeb_config s).1.raw }
          else s)
    ∧ (process_record_kb b true (ENC_MODE_RIGHT_TOGGLE b) p s).2
        = (if p then
            { s with g_spleeb_config := (step_spleeb_right_enc s.g_spleeb_config s).1
                     eeprom := (step_spleeb_right_enc s.g_spleeb_config s).1.raw }
          else s) := by
  refine ⟨?_, ?_, ?_, ?_, ?_, ?_, ?_, ?_, ?_, ?_⟩ <;>
    cases p <;>
    simp [process_record_kb, process_record_pointer_keys, process_record_encoder_keys,
      POINTER_DEFAULT_DPI_FORWARD, POINTER_DEFAULT_DPI_REVERSE, POINTER_SNIPING_DPI_FORWARD,
      POINTER_SNIPING_DPI_REVERSE, SNIPING_MODE, SNIPING_MODE_TOGGLE, DRAGSCROLL_MODE,
      DRAGSCROLL_MODE_TOGGLE, ENC_MODE_LEFT_TOGGLE, ENC_MODE_RIGHT_TOGGLE,
      spleeb_get_pointer_sniping_enabled, spleeb_get_pointer_dragscroll_enabled,
      step_spleeb_left_enc_state, step_spleeb_right_enc_state]

/-- A keycode outside the custom set falls through both switches. -/
theorem process_record_kb_other (b keycode : Nat) (p : Bool) (s : State)
    (h : keycode < POINTER_DEFAULT_DPI_FORWARD b ∨ ENC_MODE_RIGHT_TOGGLE b < keycode) :
    (process_record_kb b true keycode p s).2 = s := by
  simp only [POINTER_DEFAULT_DPI_FORWARD, ENC_MODE_RIGHT_TOGGLE] at h
  have h0 : keycode ≠ b := by omega
  have h1 : keycode ≠ b + 1 := by omega
  have h2 : keycode ≠ b + 2 := by omega
  have h3 : keycode ≠ b + 3 := by omega
  have h4 : keycode ≠ b + 4 := by omega
  have h5 : keycode ≠ b + 5 := by omega
  have h6 : keycode ≠ b + 6 := by omega
  have h7 : keycode ≠ b + 7 := by omega
  have h8 : keycode ≠ b + 8 := by omega
  have h9 : keycode ≠ b + 9 := by omega
  simp [process_record_kb, process_record_pointer_keys, process_record_encoder_keys,
    POINTER_DEFAULT_DPI_FORWARD, POINTER_DEFAULT_DPI_REVERSE, POINTER_SNIPING_DPI_FORWARD,
    POINTER_SNIPING_DPI_REVERSE, SNIPING_MODE, SNIPING_MODE_TOGGLE, DRAGSCROLL_MODE,
    DRAGSCROLL_MODE_TOGGLE, ENC_MODE_LEFT_TOGGLE, ENC_MODE_RIGHT_TOGGLE,
    h0, h1, h2, h3, h4, h5, h6, h7, h8, h9]

/-- C15: when `process_record_user` returns false, `process_record_kb` returns false and
runs none of its bindings: for every keycode and every press or release the whole state
is unchanged, in particular the config record, the EEPROM word, the device CPI and the
cursor-glide setting. -/
theorem C15_user_handled_event_is_dropped (b keycode : Nat) (pressed : Bool) (s : State) :
    (process_record_kb b false keycode pressed s).1 = false
    ∧ (process_record_kb b false keycode pressed s).2 = s
    ∧ (process_record_kb b false keycode pressed s).2.g_spleeb_config = s.g_spleeb_config
    ∧ (process_record_kb b false keycode pressed s).2.eeprom = s.eeprom
    ∧ (process_record_kb b false keycode pressed s).2.cpi = s.cpi
    ∧ (process_record_kb b false keycode pressed s).2.cursor_glide = s.cursor_glide :=
  ⟨rfl, rfl, rfl, rfl, rfl, rfl⟩

/-- C16: when `process_record_user` returns true, `process_record_kb` returns true for
every keycode, and for every keycode outside `POINTER_DEFAULT_DPI_FORWARD` ..
`ENC_MODE_RIGHT_TOGGLE` the state (config record, EEPROM word and device CPI included)
is unchanged. -/
theorem C16_unrecognised_key_passes_through (b keycode : Nat) (pressed : Bool) (s : State) :
    (process_record_kb b true keycode pressed s).1 = true
    ∧ ((keycode < POINTER_DEFAULT_DPI_FORWARD b ∨ ENC_MODE_RIGHT_TOGGLE b < keycode) →
        (process_record_kb b true keycode pressed s).2 = s
        ∧ (process_record_kb b true keycode pressed s).2.g_spleeb_config = s.g_spleeb_config
        ∧ (process_record_kb b true keycode pressed s).2.eeprom = s.eeprom
        ∧ (process_record_kb b true keycode pressed s).2.cpi = s.cpi) := by
  refine ⟨rfl, fun h => ?_⟩
  rw [process_record_kb_other b keycode pressed s h]
  exact ⟨rfl, rfl, rfl, rfl⟩

/-- C16 at a concrete input: with the enumeration starting at 24000, keycode 4 (a plain
key) pressed on a record with raw word 5 changes nothing. -/
theorem C16_unrecognised_key_witness :
    (process_record_kb 24000 true 4 true { g_spleeb_config := mk32 5 }).2
      = { g_spleeb_config := mk32 5 } :=
  ((C16_unrecognised_key_passes_through 24000 4 true { g_spleeb_config := mk32 5 }).2
    (Or.inl (by decide))).1

/-- Reading back a flag that `spleeb_set_pointer_sniping_enabled` has just written. -/
theorem set_sniping_flag (e : Bool) (s : State) :
    is_sniping_enabled (spleeb_set_pointer_sniping_enabled e s).g_spleeb_config = e := by
  rw [set_sniping_eq]
  exact congrArg Fields.snp (unpack_set_is_sniping_enabled s.g_spleeb_config e)

/-- Reading back a flag that `spleeb_set_pointer_dragscroll_enabled` has just written. -/
theorem set_dragscroll_flag (e : Bool) (s : State) :
    is_dragscroll_enabled (spleeb_set_pointer_dragscroll_enabled e s).g_spleeb_config = e := by
  rw [set_dragscroll_eq]
  exact congrArg Fields.drag (unpack_set_is_dragscroll_enabled s.g_spleeb_config e)

/-- C17: with `process_record_user` returning true, after a `SNIPING_MODE` event with
`event.pressed = p` the flag `is_sniping_enabled` is `p`, and after a `DRAGSCROLL_MODE`
event with `event.pressed = p` the flag `is_dragscroll_enabled` is `p`, whatever the
record was; so a press followed by a release leaves the flag false. -/
theorem C17_hold_keys_follow_the_key (b : Nat) (p : Bool) (s : State) :
    is_sniping_enabled (process_record_kb b true (SNIPING_MODE b) p s).2.g_spleeb_config = p
    ∧ is_dragscroll_enabled
        (process_record_kb b true (DRAGSCROLL_MODE b) p s).2.g_spleeb_config = p
    ∧ is_sniping_enabled
        (process_record_kb b true (SNIPING_MODE b) false
          (process_record_kb b true (SNIPING_MODE b) true s).2).2.g_spleeb_config = false
    ∧ is_dragscroll_enabled
        (process_record_kb b true (DRAGSCROLL_MODE b) false
          (process_record_kb b true (DRAGSCROLL_MODE b) true s).2).2.g_spleeb_config
        = false := by
  refine ⟨?_, ?_, ?_, ?_⟩
  · rw [(process_record_kb_keys b p s).2.2.2.2.1]
    exact set_sniping_flag p s
  · rw [(process_record_kb_keys b p s).2.2.2.2.2.2.1]
    exact set_dragscroll_flag p s
  · rw [(process_record_kb_keys b false _).2.2.2.2.1]
    exact set_sniping_flag false _
  · rw [(process_record_kb_keys b false _).2.2.2.2.2.2.1]
    exact set_dragscroll_flag false _

/-- The sniper flag survives every key event except a `SNIPING_MODE` event and a press
of `SNIPING_MODE_TOGGLE`. -/
theorem process_record_kb_keeps_sniping (b keycode : Nat) (p : Bool) (s : State)
    (h1 : keycode ≠ SNIPING_MODE b) (h2 : keycode = SNIPING_MODE_TOGGLE b → p = false) :
    is_sniping_enabled (process_record_kb b true keycode p s).2.g_spleeb_config
      = is_sniping_enabled s.g_spleeb_config := by
  have hk := process_record_kb_keys b p s
  by_cases ho : keycode < POINTER_DEFAULT_DPI_FORWARD b ∨ ENC_MODE_RIGHT_TOGGLE b < keycode
  · rw [process_record_kb_other b keycode p s ho]
  · simp only [POINTER_DEFAULT_DPI_FORWARD, ENC_MODE_RIGHT_TOGGLE, SNIPING_MODE,
      SNIPING_MODE_TOGGLE] at ho h1 h2
    have hc : keycode = POINTER_DEFAULT_DPI_FORWARD b ∨ keycode = POINTER_DEFAULT_DPI_REVERSE b
        ∨ keycode = POINTER_SNIPING_DPI_FORWARD b ∨ keycode = POINTER_SNIPING_DPI_REVERSE b
        ∨ keycode = SNIPING_MODE_TOGGLE b ∨ keycode = DRAGSCROLL_MODE b
        ∨ keycode = DRAGSCROLL_MODE_TOGGLE b ∨ keycode = ENC_MODE_LEFT_TOGGLE b
        ∨ keycode = ENC_MODE_RIGHT_TOGGLE b := by
      simp only [POINTER_DEFAULT_DPI_FORWARD, POINTER_DEFAULT_DPI_REVERSE,
        POINTER_SNIPING_DPI_FORWARD, POINTER_SNIPING_DPI_REVERSE, SNIPING_MODE_TOGGLE,
        DRAGSCROLL_MODE, DRAGSCROLL_MODE_TOGGLE, ENC_MODE_LEFT_TOGGLE, ENC_MODE_RIGHT_TOGGLE]
      omega
    rcases hc with e | e | e | e | e | e | e | e | e
    · rw [e, hk.1]
      cases p
      · rfl
      · rw [if_pos rfl, cycle_default_eq]
        exact congrArg Fields.snp (unpack_step_pointer_default_dpi s.g_spleeb_config true s)
    · rw [e, hk.2.1]
      cases p
      · rfl
      · rw [if_pos rfl, cycle_default_eq]
        exact congrArg Fields.snp (unpack_step_pointer_default_dpi s.g_spleeb_config false s)
    · rw [e, hk.2.2.1]
      cases p
      · rfl
      · rw [if_pos rfl, cycle_sniping_eq]
        exact congrArg Fields.snp (unpack_step_pointer_sniping_dpi s.g_spleeb_config true s)
    · rw [e, hk.2.2.2.1]
      cases p
      · rfl
      · rw [if_pos rfl, cycle_sniping_eq]
        exact congrArg Fields.snp (unpack_step_pointer_sniping_dpi s.g_spleeb_config false s)
    · have hp : p = false := h2 (by rw [e]; rfl)
      rw [e, hk.2.2.2.2.2.1, hp]
      rfl
    · rw [e, hk.2.2.2.2.2.2.1, set_dragscroll_eq]
      exact congrArg Fields.snp (unpack_set_is_dragscroll_enabled s.g_spleeb_config p)
    · rw [e, hk.2.2.2.2.2.2.2.1]
      cases p
      · rfl
      · rw [if_pos rfl, set_dragscroll_eq]
        exact congrArg Fields.snp (unpack_set_is_dragscroll_enabled s.g_spleeb_config _)
    · rw [e, hk.2.2.2.2.2.2.2.2.1]
      cases p
      · rfl
      · rw [if_pos rfl]
        exact congrArg Fields.snp (unpack_step_spleeb_left_enc s.g_spleeb_config s)
    · rw [e, hk.2.2.2.2.2.2.2.2.2]
      cases p
      · rfl
      · rw [if_pos rfl]
        exact congrArg Fields.snp (unpack_step_spleeb_right_enc s.g_spleeb_config s)

/-- C18 fails as stated: with the enumeration starting at 24000 and sniper mode off
(power-on state), a press of `SNIPING_MODE_TOGGLE` turns the flag on and the release
leaves it on. -/
theorem C18_toggle_stays_on_after_release :
    is_sniping_enabled ({} : State).g_spleeb_config = false
    ∧ is_sniping_enabled
        (process_record_kb 24000 true (SNIPING_MODE_TOGGLE 24000) true
          ({} : State)).2.g_spleeb_config = true
    ∧ is_sniping_enabled
        (process_record_kb 24000 true (SNIPING_MODE_TOGGLE 24000) false
          (process_record_kb 24000 true (SNIPING_MODE_TOGGLE 24000) true
            ({} : State)).2).2.g_spleeb_config = true := by
  decide

/-- C18 as amended: starting with sniper mode off, a press of `SNIPING_MODE_TOGGLE`
turns `is_sniping_enabled` on and the release leaves it on (the key acts on press only;
a second press turns it off again); after a call
`spleeb_set_pointer_sniping_enabled(e)` the flag equals `e`, and it keeps that value
through every key event that makes no such call, i.e. every event other than a
`SNIPING_MODE` event or a press of `SNIPING_MODE_TOGGLE`. -/
theorem C18_toggle_is_sticky (b : Nat) (s : State)
    (hoff : is_sniping_enabled s.g_spleeb_config = false) :
    is_sniping_enabled
        (process_record_kb b true (SNIPING_MODE_TOGGLE b) true s).2.g_spleeb_config = true
    ∧ is_sniping_enabled
        (process_record_kb b true (SNIPING_MODE_TOGGLE b) false
          (process_record_kb b true (SNIPING_MODE_TOGGLE b) true s).2).2.g_spleeb_config
        = true
    ∧ is_sniping_enabled
        (process_record_kb b true (SNIPING_MODE_TOGGLE b) true
          (process_record_kb b true (SNIPING_MODE_TOGGLE b) false
            (process_record_kb b true (SNIPING_MODE_TOGGLE b) true s).2).2).2.g_spleeb_config
        = false
    ∧ (∀ e : Bool,
        is_sniping_enabled (spleeb_set_pointer_sniping_enabled e s).g_spleeb_config = e)
    ∧ (∀ (e : Bool) (keycode : Nat) (pressed : Bool),
        keycode ≠ SNIPING_MODE b →
        (keycode = SNIPING_MODE_TOGGLE b → pressed = false) →
        is_sniping_enabled
          (process_record_kb b true keycode pressed
            (spleeb_set_pointer_sniping_enabled e s)).2.g_spleeb_config = e) := by
  have hne : SNIPING_MODE_TOGGLE b ≠ SNIPING_MODE b := by
    simp [SNIPING_MODE_TOGGLE, SNIPING_MODE]
  have hpress : is_sniping_enabled
      (process_record_kb b true (SNIPING_MODE_TOGGLE b) true s).2.g_spleeb_config = true := by
    rw [(process_record_kb_keys b true s).2.2.2.2.2.1, if_pos rfl, set_sniping_flag, hoff]
    rfl
  have hrel : is_sniping_enabled
      (process_record_kb b true (SNIPING_MODE_TOGGLE b) false
        (process_record_kb b true (SNIPING_MODE_TOGGLE b) true s).2).2.g_spleeb_config
      = true := by
    rw [process_record_kb_keeps_sniping b _ false _ hne (fun _ => rfl)]
    exact hpress
  refine ⟨hpress, hrel, ?_, fun e => set_sniping_flag e s, ?_⟩
  · rw [(process_record_kb_keys b true _).2.2.2.2.2.1, if_pos rfl, set_sniping_flag, hrel]
    rfl
  · intro e keycode pressed h1 h2
    rw [process_record_kb_keeps_sniping b keycode pressed _ h1 h2]
    exact set_sniping_flag e s

/-- C18 (amended) at a concrete input: from the power-on state, press and release of
the toggle key leave sniper mode on. -/
theorem C18_toggle_is_sticky_witness :
    is_sniping_enabled
        (process_record_kb 24000 true (SNIPING_MODE_TOGGLE 24000) false
          (process_record_kb 24000 true (SNIPING_MODE_TOGGLE 24000) true
            ({} : State)).2).2.g_spleeb_config = true :=
  (C18_toggle_is_sticky 24000 {} (by decide)).2.1

/-- A record is the `uint32_t` made from its own raw word. -/
theorem mk32_of_raw (c : spleeb_config_t) : mk32 c.raw = c :=
  spleeb_config_t.ext (Nat.mod_eq_of_lt c.raw_lt)

/-- C19 fails as stated: with the enumeration starting at 24000, a press of
`POINTER_DEFAULT_DPI_FORWARD` that `process_record_user` does not let through (it returns
false) leaves the record at raw word 5 and the EEPROM word at 0, which is not the raw
word of the record. -/
theorem C19_swallowed_press_persists_nothing :
    (process_record_kb 24000 false (POINTER_DEFAULT_DPI_FORWARD 24000) true
        { g_spleeb_config := mk32 5 }).2.eeprom = 0
    ∧ (process_record_kb 24000 false (POINTER_DEFAULT_DPI_FORWARD 24000) true
        { g_spleeb_config := mk32 5 }).2.g_spleeb_config.raw = 5
    ∧ (process_record_kb 24000 false (POINTER_DEFAULT_DPI_FORWARD 24000) true
        { g_spleeb_config := mk32 5 }).2.eeprom
      ≠ (process_record_kb 24000 false (POINTER_DEFAULT_DPI_FORWARD 24000) true
        { g_spleeb_config := mk32 5 }).2.g_spleeb_config.raw := by
  decide

/-- C19 as amended: no event for `SNIPING_MODE`, `SNIPING_MODE_TOGGLE`, `DRAGSCROLL_MODE`
or `DRAGSCROLL_MODE_TOGGLE`, press or release, changes the EEPROM word, whatever
`process_record_user` returns; a press of one of the four DPI-step keys or of an
encoder-mode-cycle key leaves in EEPROM the raw word of the updated record, whose two
volatile flag bits are the flags as they currently are, when `process_record_user`
returns true; when it returns false no key event changes the EEPROM word or anything
else. -/
theorem C19_only_stepping_persists (b keycode : Nat) (s : State) :
    ((keycode = SNIPING_MODE b ∨ keycode = SNIPING_MODE_TOGGLE b
        ∨ keycode = DRAGSCROLL_MODE b ∨ keycode = DRAGSCROLL_MODE_TOGGLE b) →
      ∀ user pressed : Bool, (process_record_kb b user keycode pressed s).2.eeprom = s.eeprom)
    ∧ ((keycode = POINTER_DEFAULT_DPI_FORWARD b ∨ keycode = POINTER_DEFAULT_DPI_REVERSE b
        ∨ keycode = POINTER_SNIPING_DPI_FORWARD b ∨ keycode = POINTER_SNIPING_DPI_REVERSE b
        ∨ keycode = ENC_MODE_LEFT_TOGGLE b ∨ keycode = ENC_MODE_RIGHT_TOGGLE b) →
      (process_record_kb b true keycode true s).2.eeprom
          = (process_record_kb b true keycode true s).2.g_spleeb_config.raw
      ∧ is_dragscroll_enabled (mk32 (process_record_kb b true keycode true s).2.eeprom)
          = is_dragscroll_enabled s.g_spleeb_config
      ∧ is_sniping_enabled (mk32 (process_record_kb b true keycode true s).2.eeprom)
          = is_sniping_enabled s.g_spleeb_config)
    ∧ (∀ pressed : Bool,
        (process_record_kb b false keycode pressed s).2.eeprom = s.eeprom
        ∧ (process_record_kb b false keycode pressed s).2 = s) := by
  refine ⟨?_, ?_, fun _ => ⟨rfl, rfl⟩⟩
  · intro hk user pressed
    cases user
    · rfl
    · have h := process_record_kb_keys b pressed s
      rcases hk with e | e | e | e
      · rw [e, h.2.2.2.2.1, set_sniping_eq]
      · rw [e, h.2.2.2.2.2.1]
        cases pressed
        · rfl
        · rw [if_pos rfl, set_sniping_eq]
      · rw [e, h.2.2.2.2.2.2.1, set_dragscroll_eq]
      · rw [e, h.2.2.2.2.2.2.2.1]
        cases pressed
        · rfl
        · rw [if_pos rfl, set_dragscroll_eq]
  · intro hk
    have h := process_record_kb_keys b true s
    rcases hk with e | e | e | e | e | e
    · rw [e, h.1, if_pos rfl, cycle_default_eq]
      dsimp only
      rw [mk32_of_raw]
      exact ⟨rfl,
        congrArg Fields.drag (unpack_step_pointer_default_dpi s.g_spleeb_config true s),
        congrArg Fields.snp (unpack_step_pointer_default_dpi s.g_spleeb_config true s)⟩
    · rw [e, h.2.1, if_pos rfl, cycle_default_eq]
      dsimp only
      rw [mk32_of_raw]
      exact ⟨rfl,
        congrArg Fields.drag (unpack_step_pointer_default_dpi s.g_spleeb_config false s),
        congrArg Fields.snp (unpack_step_pointer_default_dpi s.g_spleeb_config false s)⟩
    · rw [e, h.2.2.1, if_pos rfl, cycle_sniping_eq]
      dsimp only
      rw [mk32_of_raw]
      exact ⟨rfl,
        congrArg Fields.drag (unpack_step_pointer_sniping_dpi s.g_spleeb_config true s),
        congrArg Fields.snp (unpack_step_pointer_sniping_dpi s.g_spleeb_config true s)⟩
    · rw [e, h.2.2.2.1, if_pos rfl, cycle_sniping_eq]
      dsimp only
      rw [mk32_of_raw]
      exact ⟨rfl,
        congrArg Fields.drag (unpack_step_pointer_sniping_dpi s.g_spleeb_config false s),
        congrArg Fields.snp (unpack_step_pointer_sniping_dpi s.g_spleeb_config false s)⟩
    · rw [e, h.2.2.2.2.2.2.2.2.1, if_pos rfl]
      dsimp only
      rw [mk32_of_raw]
      exact ⟨rfl, congrArg Fields.drag (unpack_step_spleeb_left_enc s.g_spleeb_config s),
        congrArg Fields.snp (unpack_step_spleeb_left_enc s.g_spleeb_config s)⟩
    · rw [e, h.2.2.2.2.2.2.2.2.2, if_pos rfl]
      dsimp only
      rw [mk32_of_raw]
      exact ⟨rfl, congrArg Fields.drag (unpack_step_spleeb_right_enc s.g_spleeb_config s),
        congrArg Fields.snp (unpack_step_spleeb_right_enc s.g_spleeb_config s)⟩

/-- C19 at a concrete input: with sniper mode on (bit 25) and index 4, a press of
`POINTER_DEFAULT_DPI_FORWARD` stores the word with index 5 and bit 25 still set, while a
press of `DRAGSCROLL_MODE_TOGGLE` leaves the EEPROM word 0 in place. -/
theorem C19_only_stepping_persists_witness :
    (process_record_kb 24000 true (POINTER_DEFAULT_DPI_FORWARD 24000) true
        { g_spleeb_config := mk32 33554436 }).2.eeprom = 33554437
    ∧ (process_record_kb 24000 true (DRAGSCROLL_MODE_TOGGLE 24000) true
        { g_spleeb_config := mk32 33554436 }).2.eeprom = 0 :=
  ⟨((C19_only_stepping_persists 24000 (POINTER_DEFAULT_DPI_FORWARD 24000)
      { g_spleeb_config := mk32 33554436 }).2.1 (Or.inl rfl)).1.trans (by decide),
    (C19_only_stepping_persists 24000 (DRAGSCROLL_MODE_TOGGLE 24000)
      { g_spleeb_config := mk32 33554436 }).1 (Or.inr (Or.inr (Or.inr rfl))) true true⟩

/-! ### Sniper switch and device CPI -/

/-- C20 fails as stated: with drag-scroll on (index 4, device CPI 700), enabling sniper
mode sets the flag but leaves the device CPI at 700, not at the sniper DPI 100. -/
theorem C20_cpi_not_reapplied_under_dragscroll :
    is_dragscroll_enabled
        (spleeb_set_pointer_dragscroll_enabled true
          { g_spleeb_config := mk32 4, cpi := 700 }).g_spleeb_config = true
    ∧ is_sniping_enabled
        (spleeb_set_pointer_sniping_enabled true
          (spleeb_set_pointer_dragscroll_enabled true
            { g_spleeb_config := mk32 4, cpi := 700 })).g_spleeb_config = true
    ∧ (spleeb_set_pointer_sniping_enabled true
        (spleeb_set_pointer_dragscroll_enabled true
          { g_spleeb_config := mk32 4, cpi := 700 })).cpi = 700
    ∧ spleeb_get_pointer_sniping_dpi
        (spleeb_set_pointer_sniping_enabled true
          (spleeb_set_pointer_dragscroll_enabled true
            { g_spleeb_config := mk32 4, cpi := 700 })) = 100 := by
  decide

/-- C20 as amended: after `spleeb_set_pointer_sniping_enabled(e)` the flag
`is_sniping_enabled` equals `e`; when drag-scroll is not enabled the device CPI is the
sniper DPI if `e` is true and the default DPI otherwise (the effective DPI); when
drag-scroll is enabled the device CPI is left as it was. -/
theorem C20_set_sniping_reapplies_cpi (e : Bool) (s : State) :
    is_sniping_enabled (spleeb_set_pointer_sniping_enabled e s).g_spleeb_config = e
    ∧ (is_dragscroll_enabled s.g_spleeb_config = false →
        (spleeb_set_pointer_sniping_enabled e s).cpi
            = (if e then spleeb_get_pointer_sniping_dpi (spleeb_set_pointer_sniping_enabled e s)
               else spleeb_get_pointer_default_dpi (spleeb_set_pointer_sniping_enabled e s))
        ∧ (spleeb_set_pointer_sniping_enabled e s).cpi
            = get_pointer_current_dpi (spleeb_set_pointer_sniping_enabled e s).g_spleeb_config
        ∧ spleeb_get_pointer_sniping_dpi (spleeb_set_pointer_sniping_enabled e s)
            = spleeb_get_pointer_sniping_dpi s
        ∧ spleeb_get_pointer_default_dpi (spleeb_set_pointer_sniping_enabled e s)
            = spleeb_get_pointer_default_dpi s)
    ∧ (is_dragscroll_enabled s.g_spleeb_config = true →
        (spleeb_set_pointer_sniping_enabled e s).cpi = s.cpi) := by
  have hu := unpack_set_is_sniping_enabled s.g_spleeb_config e
  have hd : is_dragscroll_enabled (set_is_sniping_enabled s.g_spleeb_config e)
      = is_dragscroll_enabled s.g_spleeb_config := congrArg Fields.drag hu
  have hs : is_sniping_enabled (set_is_sniping_enabled s.g_spleeb_config e) = e :=
    congrArg Fields.snp hu
  have h1 : pointer_default_dpi (set_is_sniping_enabled s.g_spleeb_config e)
      = pointer_default_dpi s.g_spleeb_config := congrArg Fields.dpi hu
  have h2 : pointer_sniping_dpi (set_is_sniping_enabled s.g_spleeb_config e)
      = pointer_sniping_dpi s.g_spleeb_config := congrArg Fields.snipe hu
  refine ⟨set_sniping_flag e s, fun h => ?_, fun h => ?_⟩
  · rw [set_sniping_eq]
    simp only [maybe_update_eq, hd, hs, h, spleeb_get_pointer_sniping_dpi,
      spleeb_get_pointer_default_dpi, get_pointer_current_dpi, get_pointer_sniping_dpi,
      get_pointer_default_dpi, h1, h2]
    cases e <;> simp
  · rw [set_sniping_eq]
    simp only [maybe_update_eq, hd, h, if_true]

/-- C20 (amended) at a concrete input: drag-scroll off, sniper index 2, enabling sniper
mode sets the device CPI to 300. -/
theorem C20_set_sniping_reapplies_cpi_witness :
    (spleeb_set_pointer_sniping_enabled true { g_spleeb_config := mk32 36, cpi := 700 }).cpi
      = 300 :=
  (((C20_set_sniping_reapplies_cpi true { g_spleeb_config := mk32 36, cpi := 700 }).2.1
    (by decide)).1).trans (by decide)

/-! ### Drag-scroll switch -/

/-- C21 fails as stated: after `pointing_device_init_kb` (device CPI 300), with
drag-scroll and then sniper mode switched on, the effective DPI is the sniper DPI 100;
`spleeb_set_pointer_dragscroll_enabled(true)` sets the flag and the cursor glide but
leaves the device CPI at 300. -/
theorem C21_cpi_not_reapplied_when_enabling :
    is_dragscroll_enabled
        (spleeb_set_pointer_dragscroll_enabled true
          (spleeb_set_pointer_sniping_enabled true
            (spleeb_set_pointer_dragscroll_enabled true
              (pointing_device_init_kb {})))).g_spleeb_config = true
    ∧ (spleeb_set_pointer_dragscroll_enabled true
        (spleeb_set_pointer_sniping_enabled true
          (spleeb_set_pointer_dragscroll_enabled true
            (pointing_device_init_kb {})))).cpi = 300
    ∧ get_pointer_current_dpi
        (spleeb_set_pointer_dragscroll_enabled true
          (spleeb_set_pointer_sniping_enabled true
            (spleeb_set_pointer_dragscroll_enabled true
              (pointing_device_init_kb {})))).g_spleeb_config = 100 := by
  decide

/-- C21 as amended: after `spleeb_set_pointer_dragscroll_enabled(e)` the flag
`is_dragscroll_enabled` equals `e`, the cursor-glide feature is set to `e` and no other
member of the record has changed; when `e` is false the device CPI equals the effective
DPI of the record, and when `e` is true the device CPI is left as it was. -/
theorem C21_set_dragscroll (e : Bool) (s : State) :
    is_dragscroll_enabled (spleeb_set_pointer_dragscroll_enabled e s).g_spleeb_config = e
    ∧ (spleeb_set_pointer_dragscroll_enabled e s).cursor_glide = e
    ∧ unpack (spleeb_set_pointer_dragscroll_enabled e s).g_spleeb_config
        = { unpack s.g_spleeb_config with drag := e }
    ∧ (spleeb_set_pointer_dragscroll_enabled e s).eeprom = s.eeprom
    ∧ (e = false →
        (spleeb_set_pointer_dragscroll_enabled e s).cpi
          = get_pointer_current_dpi (spleeb_set_pointer_dragscroll_enabled e s).g_spleeb_config)
    ∧ (e = true → (spleeb_set_pointer_dragscroll_enabled e s).cpi = s.cpi) := by
  have hu := unpack_set_is_dragscroll_enabled s.g_spleeb_config e
  have hd : is_dragscroll_enabled (set_is_dragscroll_enabled s.g_spleeb_config e) = e :=
    congrArg Fields.drag hu
  refine ⟨set_dragscroll_flag e s, ?_, ?_, ?_, fun h => ?_, fun h => ?_⟩
  · rw [set_dragscroll_eq]
  · rw [set_dragscroll_eq]
    exact hu
  · rw [set_dragscroll_eq]
  · subst h
    rw [set_dragscroll_eq, maybe_update_eq]
    exact if_neg (by rw [hd]; exact Bool.false_ne_true)
  · subst h
    rw [set_dragscroll_eq, maybe_update_eq]
    exact if_pos hd

/-- C21 (amended) at a concrete input: switching drag-scroll off with sniper mode on
(sniper index 2) sets the device CPI to 300. -/
theorem C21_set_dragscroll_witness :
    (spleeb_set_pointer_dragscroll_enabled false
        { g_spleeb_config := mk32 50331684, cpi := 700 }).cpi = 300 :=
  ((C21_set_dragscroll false { g_spleeb_config := mk32 50331684, cpi := 700 }).2.2.2.2.1
    rfl).trans (by decide)

/-- C22: with drag-scroll enabled `pointing_device_task_spleeb` returns a report with
`x = 0` and `y = 0` for every input report; with drag-scroll disabled it returns the
report and the state (both accumulators included) unchanged; `pointing_device_task_kb`
on a half that is not the master returns its input report and leaves the state alone,
and on the master it hands the report of `pointing_device_task_spleeb` to the user
hook. -/
theorem C22_dragscroll_suppresses_motion (r : report_mouse_t) (s : State)
    (user : report_mouse_t → report_mouse_t) :
    (is_dragscroll_enabled s.g_spleeb_config = true →
      (pointing_device_task_spleeb r s).1.x = 0 ∧ (pointing_device_task_spleeb r s).1.y = 0)
    ∧ (is_dragscroll_enabled s.g_spleeb_config = false →
      pointing_device_task_spleeb r s = (r, s)
      ∧ (pointing_device_task_spleeb r s).1.x = r.x
      ∧ (pointing_device_task_spleeb r s).1.y = r.y
      ∧ (pointing_device_task_spleeb r s).1.h = r.h
      ∧ (pointing_device_task_spleeb r s).1.v = r.v
      ∧ (pointing_device_task_spleeb r s).2.scroll_x = s.scroll_x
      ∧ (pointing_device_task_spleeb r s).2.scroll_y = s.scroll_y)
    ∧ pointing_device_task_kb false user r s = (r, s)
    ∧ pointing_device_task_kb true user r s
        = (user (pointing_device_task_spleeb r s).1, (pointing_device_task_spleeb r s).2) := by
  refine ⟨fun h => ?_, fun h => ?_, rfl, rfl⟩
  · simp [pointing_device_task_spleeb, h]
  · have e : pointing_device_task_spleeb r s = (r, s) := by
      simp [pointing_device_task_spleeb, h]
    rw [e]
    exact ⟨rfl, rfl, rfl, rfl, rfl, rfl, rfl⟩

/-- C22 at a concrete input: with drag-scroll on the report (x, y) = (5, -7) comes out
with x = 0 and y = 0; with drag-scroll off it comes out as it went in. -/
theorem C22_dragscroll_suppresses_motion_witness :
    (pointing_device_task_spleeb { x := 5, y := -7 }
        { g_spleeb_config := mk32 16777216 }).1.x = 0
    ∧ pointing_device_task_spleeb { x := 5, y := -7 } {} = ({ x := 5, y := -7 }, {}) :=
  ⟨((C22_dragscroll_suppresses_motion { x := 5, y := -7 }
      { g_spleeb_config := mk32 16777216 } id).1 (by decide)).1,
    ((C22_dragscroll_suppresses_motion { x := 5, y := -7 } {} id).2.1 (by decide)).1⟩

/-! ### Persisting and non-persisting steps, board reset -/

/-- The record that a board reset loads: the EEPROM word with both flags cleared. -/
theorem unpack_read (s : State) :
    unpack (read_spleeb_config_from_eeprom s)
      = { unpack (mk32 s.eeprom) with drag := false, snp := false } := by
  have e : mk32 (eeconfig_read_kb s) = mk32 s.eeprom :=
    spleeb_config_t.ext (Nat.mod_mod _ _)
  simp only [read_spleeb_config_from_eeprom, e, unpack_set_is_sniping_enabled,
    unpack_set_is_dragscroll_enabled]

/-- C23: for every state and direction the `_noeeprom` step and the persisting step of
the default index leave the same in-memory record and the same device CPI, and so do
the two steps of the sniper index; the `_noeeprom` steps leave the EEPROM word alone, so
a following `matrix_init_kb` loads the same record as it would have before the step,
while after a persisting step a following `matrix_init_kb` loads the stepped index. -/
theorem C23_noeeprom_refines_persisting (forward : Bool) (s : State) :
    (spleeb_cycle_pointer_default_dpi_noeeprom forward s).g_spleeb_config
        = (spleeb_cycle_pointer_default_dpi forward s).g_spleeb_config
    ∧ (spleeb_cycle_pointer_default_dpi_noeeprom forward s).cpi
        = (spleeb_cycle_pointer_default_dpi forward s).cpi
    ∧ (spleeb_cycle_pointer_sniping_dpi_noeeprom forward s).g_spleeb_config
        = (spleeb_cycle_pointer_sniping_dpi forward s).g_spleeb_config
    ∧ (spleeb_cycle_pointer_sniping_dpi_noeeprom forward s).cpi
        = (spleeb_cycle_pointer_sniping_dpi forward s).cpi
    ∧ (spleeb_cycle_pointer_default_dpi_noeeprom forward s).eeprom = s.eeprom
    ∧ (spleeb_cycle_pointer_sniping_dpi_noeeprom forward s).eeprom = s.eeprom
    ∧ (matrix_init_kb (spleeb_cycle_pointer_default_dpi_noeeprom forward s)).g_spleeb_config
        = (matrix_init_kb s).g_spleeb_config
    ∧ (matrix_init_kb (spleeb_cycle_pointer_sniping_dpi_noeeprom forward s)).g_spleeb_config
        = (matrix_init_kb s).g_spleeb_config
    ∧ pointer_default_dpi
        (matrix_init_kb (spleeb_cycle_pointer_default_dpi_noeeprom forward s)).g_spleeb_config
        = s.eeprom % 16
    ∧ pointer_sniping_dpi
        (matrix_init_kb (spleeb_cycle_pointer_sniping_dpi_noeeprom forward s)).g_spleeb_config
        = s.eeprom / 16 % 4
    ∧ pointer_default_dpi
        (matrix_init_kb (spleeb_cycle_pointer_default_dpi forward s)).g_spleeb_config
        = (pointer_default_dpi s.g_spleeb_config + (if forward then 1 else 15)) % 16
    ∧ pointer_sniping_dpi
        (matrix_init_kb (spleeb_cycle_pointer_sniping_dpi forward s)).g_spleeb_config
        = (pointer_sniping_dpi s.g_spleeb_config + (if forward then 1 else 3)) % 4 := by
  have hd : (spleeb_cycle_pointer_default_dpi_noeeprom forward s).eeprom = s.eeprom := by
    simp only [spleeb_cycle_pointer_default_dpi_noeeprom, step_pointer_default_dpi,
      maybe_update_eq]
  have hs : (spleeb_cycle_pointer_sniping_dpi_noeeprom forward s).eeprom = s.eeprom := by
    simp only [spleeb_cycle_pointer_sniping_dpi_noeeprom, step_pointer_sniping_dpi,
      maybe_update_eq]
  have hmd : (matrix_init_kb (spleeb_cycle_pointer_default_dpi_noeeprom forward s)).g_spleeb_config
      = (matrix_init_kb s).g_spleeb_config := by
    simp only [matrix_init_kb, read_spleeb_config_from_eeprom, eeconfig_read_kb, hd]
  have hms : (matrix_init_kb (spleeb_cycle_pointer_sniping_dpi_noeeprom forward s)).g_spleeb_config
      = (matrix_init_kb s).g_spleeb_config := by
    simp only [matrix_init_kb, read_spleeb_config_from_eeprom, eeconfig_read_kb, hs]
  have hm : ∀ t : State, unpack (matrix_init_kb t).g_spleeb_config
      = { unpack (mk32 t.eeprom) with drag := false, snp := false } := fun t => unpack_read t
  refine ⟨?_, ?_, ?_, ?_, hd, hs, hmd, hms, ?_, ?_, ?_, ?_⟩
  · rw [cycle_default_eq]; rfl
  · rw [cycle_default_eq]; rfl
  · rw [cycle_sniping_eq]; rfl
  · rw [cycle_sniping_eq]; rfl
  · rw [hmd]
    have h := congrArg Fields.dpi (hm s)
    simp only [unpack, pointer_default_dpi, mk32_raw] at h
    rw [pointer_default_dpi, h]
    omega
  · rw [hms]
    have h := congrArg Fields.snipe (hm s)
    simp only [unpack, pointer_sniping_dpi, mk32_raw] at h
    rw [pointer_sniping_dpi, h]
    omega
  · have h := congrArg Fields.dpi (hm (spleeb_cycle_pointer_default_dpi forward s))
    have e : (spleeb_cycle_pointer_default_dpi forward s).eeprom
        = (step_pointer_default_dpi s.g_spleeb_config forward s).1.raw := by
      rw [cycle_default_eq]
    rw [e, mk32_of_raw] at h
    exact h.trans (step_pointer_default_dpi_index s.g_spleeb_config forward s)
  · have h := congrArg Fields.snipe (hm (spleeb_cycle_pointer_sniping_dpi forward s))
    have e : (spleeb_cycle_pointer_sniping_dpi forward s).eeprom
        = (step_pointer_sniping_dpi s.g_spleeb_config forward s).1.raw := by
      rw [cycle_sniping_eq]
    rw [e, mk32_of_raw] at h
    exact h.trans (step_pointer_sniping_dpi_index s.g_spleeb_config forward s)

/-! ### Edge-triggered keys -/

/-- Two objects with the same members and padding are the same object. -/
theorem unpack_inj {c d : spleeb_config_t} (h : unpack c = unpack d) : c = d := by
  apply spleeb_config_t.ext
  rw [raw_eq_sum c, raw_eq_sum d, h]

/-- C24: with `process_record_user` returning true, a release of any of the eight
non-hold custom keys leaves the whole state unchanged (config record, EEPROM word and
device CPI included); a press of `SNIPING_MODE_TOGGLE` negates `is_sniping_enabled` and a
press of `DRAGSCROLL_MODE_TOGGLE` negates `is_dragscroll_enabled`, each leaving every
other member alone, so two presses give back the record. -/
theorem C24_edge_triggered_keys (b keycode : Nat) (s : State) :
    ((keycode = POINTER_DEFAULT_DPI_FORWARD b ∨ keycode = POINTER_DEFAULT_DPI_REVERSE b
        ∨ keycode = POINTER_SNIPING_DPI_FORWARD b ∨ keycode = POINTER_SNIPING_DPI_REVERSE b
        ∨ keycode = SNIPING_MODE_TOGGLE b ∨ keycode = DRAGSCROLL_MODE_TOGGLE b
        ∨ keycode = ENC_MODE_LEFT_TOGGLE b ∨ keycode = ENC_MODE_RIGHT_TOGGLE b) →
      (process_record_kb b true keycode false s).2 = s)
    ∧ unpack (process_record_kb b true (SNIPING_MODE_TOGGLE b) true s).2.g_spleeb_config
        = { unpack s.g_spleeb_config with snp := !is_sniping_enabled s.g_spleeb_config }
    ∧ unpack (process_record_kb b true (DRAGSCROLL_MODE_TOGGLE b) true s).2.g_spleeb_config
        = { unpack s.g_spleeb_config with drag := !is_dragscroll_enabled s.g_spleeb_config }
    ∧ (process_record_kb b true (SNIPING_MODE_TOGGLE b) true
        (process_record_kb b true (SNIPING_MODE_TOGGLE b) true s).2).2.g_spleeb_config
        = s.g_spleeb_config
    ∧ (process_record_kb b true (DRAGSCROLL_MODE_TOGGLE b) true
        (process_record_kb b true (DRAGSCROLL_MODE_TOGGLE b) true s).2).2.g_spleeb_config
        = s.g_spleeb_config := by
  have hk := process_record_kb_keys b false s
  have hs : ∀ t : State,
      unpack (process_record_kb b true (SNIPING_MODE_TOGGLE b) true t).2.g_spleeb_config
        = { unpack t.g_spleeb_config with snp := !is_sniping_enabled t.g_spleeb_config } := by
    intro t
    rw [(process_record_kb_keys b true t).2.2.2.2.2.1, if_pos rfl, set_sniping_eq]
    exact unpack_set_is_sniping_enabled t.g_spleeb_config _
  have hd : ∀ t : State,
      unpack (process_record_kb b true (DRAGSCROLL_MODE_TOGGLE b) true t).2.g_spleeb_config
        = { unpack t.g_spleeb_config with drag := !is_dragscroll_enabled t.g_spleeb_config } := by
    intro t
    rw [(process_record_kb_keys b true t).2.2.2.2.2.2.2.1, if_pos rfl, set_dragscroll_eq]
    exact unpack_set_is_dragscroll_enabled t.g_spleeb_config _
  refine ⟨fun h => ?_, hs s, hd s, ?_, ?_⟩
  · rcases h with e | e | e | e | e | e | e | e
    · rw [e, hk.1]; rfl
    · rw [e, hk.2.1]; rfl
    · rw [e, hk.2.2.1]; rfl
    · rw [e, hk.2.2.2.1]; rfl
    · rw [e, hk.2.2.2.2.2.1]; rfl
    · rw [e, hk.2.2.2.2.2.2.2.1]; rfl
    · rw [e, hk.2.2.2.2.2.2.2.2.1]; rfl
    · rw [e, hk.2.2.2.2.2.2.2.2.2]; rfl
  · apply unpack_inj
    have h1 := hs s
    have h2 := hs (process_record_kb b true (SNIPING_MODE_TOGGLE b) true s).2
    have h3 : is_sniping_enabled
        (process_record_kb b true (SNIPING_MODE_TOGGLE b) true s).2.g_spleeb_config
        = !is_sniping_enabled s.g_spleeb_config := congrArg Fields.snp h1
    rw [h2, h3, h1]
    simp [unpack]
  · apply unpack_inj
    have h1 := hd s
    have h2 := hd (process_record_kb b true (DRAGSCROLL_MODE_TOGGLE b) true s).2
    have h3 : is_dragscroll_enabled
        (process_record_kb b true (DRAGSCROLL_MODE_TOGGLE b) true s).2.g_spleeb_config
        = !is_dragscroll_enabled s.g_spleeb_config := congrArg Fields.drag h1
    rw [h2, h3, h1]
    simp [unpack]

/-- C24 at a concrete input: a release of `POINTER_DEFAULT_DPI_FORWARD` on a record with
raw word 5 changes nothing. -/
theorem C24_edge_triggered_keys_witness :
    (process_record_kb 24000 true (POINTER_DEFAULT_DPI_FORWARD 24000) false
        { g_spleeb_config := mk32 5 }).2 = { g_spleeb_config := mk32 5 } :=
  (C24_edge_triggered_keys 24000 (POINTER_DEFAULT_DPI_FORWARD 24000)
    { g_spleeb_config := mk32 5 }).1 (Or.inl rfl)

/-! ### Index arithmetic -/

/-- The record after `n` forward steps of the default index. -/
theorem unpack_iterate_default (s : State) (c : spleeb_config_t) (n : Nat) :
    unpack ((fun c => (step_pointer_default_dpi c true s).1)^[n] c)
      = { unpack c with dpi := (pointer_default_dpi c + n) % 16 } := by
  induction n with
  | zero =>
    have h : pointer_default_dpi c < 16 := Nat.mod_lt _ (by decide)
    simp [unpack, Nat.mod_eq_of_lt h]
  | succ n ih =>
    rw [Function.iterate_succ_apply', unpack_step_pointer_default_dpi, ih]
    have e : pointer_default_dpi ((fun c => (step_pointer_default_dpi c true s).1)^[n] c)
        = (pointer_default_dpi c + n) % 16 := congrArg Fields.dpi ih
    rw [e]
    simp only [if_true, Fields.mk.injEq, and_self, and_true, true_and]
    omega

/-- The record after `n` forward steps of the sniper index. -/
theorem unpack_iterate_sniping (s : State) (c : spleeb_config_t) (n : Nat) :
    unpack ((fun c => (step_pointer_sniping_dpi c true s).1)^[n] c)
      = { unpack c with snipe := (pointer_sniping_dpi c + n) % 4 } := by
  induction n with
  | zero =>
    have h : pointer_sniping_dpi c < 4 := Nat.mod_lt _ (by decide)
    simp [unpack, Nat.mod_eq_of_lt h]
  | succ n ih =>
    rw [Function.iterate_succ_apply', unpack_step_pointer_sniping_dpi, ih]
    have e : pointer_sniping_dpi ((fun c => (step_pointer_sniping_dpi c true s).1)^[n] c)
        = (pointer_sniping_dpi c + n) % 4 := congrArg Fields.snipe ih
    rw [e]
    simp only [if_true, Fields.mk.injEq, and_self, and_true, true_and]
    omega

/-- C25: the default index steps modulo 16 and the sniper index modulo 4, and the steps
are invertible: forward then backward, or backward then forward, gives back the record;
16 forward steps of the default index (4 of the sniper index) give back the record;
forward from default index 15 gives 0 and backward from 0 gives 15; forward from sniper
index 3 gives 0 and backward from 0 gives 3. -/
theorem C25_index_steps_wrap_and_invert (c : spleeb_config_t) (s t : State) :
    (step_pointer_default_dpi (step_pointer_default_dpi c true s).1 false t).1 = c
    ∧ (step_pointer_default_dpi (step_pointer_default_dpi c false s).1 true t).1 = c
    ∧ (fun c => (step_pointer_default_dpi c true s).1)^[16] c = c
    ∧ (pointer_default_dpi c = 15 →
        pointer_default_dpi (step_pointer_default_dpi c true s).1 = 0)
    ∧ (pointer_default_dpi c = 0 →
        pointer_default_dpi (step_pointer_default_dpi c false s).1 = 15)
    ∧ (step_pointer_sniping_dpi (step_pointer_sniping_dpi c true s).1 false t).1 = c
    ∧ (step_pointer_sniping_dpi (step_pointer_sniping_dpi c false s).1 true t).1 = c
    ∧ (fun c => (step_pointer_sniping_dpi c true s).1)^[4] c = c
    ∧ (pointer_sniping_dpi c = 3 →
        pointer_sniping_dpi (step_pointer_sniping_dpi c true s).1 = 0)
    ∧ (pointer_sniping_dpi c = 0 →
        pointer_sniping_dpi (step_pointer_sniping_dpi c false s).1 = 3) := by
  have hd : pointer_default_dpi c < 16 := Nat.mod_lt _ (by decide)
  have hs : pointer_sniping_dpi c < 4 := Nat.mod_lt _ (by decide)
  have ud : ∀ (f : Bool) (c : spleeb_config_t) (s : State),
      pointer_default_dpi (step_pointer_default_dpi c f s).1
        = (pointer_default_dpi c + (if f then 1 else 15)) % 16 :=
    fun f c s => step_pointer_default_dpi_index c f s
  have us : ∀ (f : Bool) (c : spleeb_config_t) (s : State),
      pointer_sniping_dpi (step_pointer_sniping_dpi c f s).1
        = (pointer_sniping_dpi c + (if f then 1 else 3)) % 4 :=
    fun f c s => step_pointer_sniping_dpi_index c f s
  have kd : unpack c = { unpack c with dpi := pointer_default_dpi c } := rfl
  have ks : unpack c = { unpack c with snipe := pointer_sniping_dpi c } := rfl
  refine ⟨?_, ?_, ?_, fun h => ?_, fun h => ?_, ?_, ?_, ?_, fun h => ?_, fun h => ?_⟩
  · apply unpack_inj
    rw [unpack_step_pointer_default_dpi, unpack_step_pointer_default_dpi, ud]
    conv_rhs => rw [kd]
    simp only [if_true, if_false, Bool.false_eq_true, Fields.mk.injEq, and_self, and_true,
      true_and]
    omega
  · apply unpack_inj
    rw [unpack_step_pointer_default_dpi, unpack_step_pointer_default_dpi, ud]
    conv_rhs => rw [kd]
    simp only [if_true, if_false, Bool.false_eq_true, Fields.mk.injEq, and_self, and_true,
      true_and]
    omega
  · apply unpack_inj
    rw [unpack_iterate_default]
    conv_rhs => rw [kd]
    simp only [Fields.mk.injEq, and_self, and_true, true_and]
    omega
  · rw [ud, h]; rfl
  · rw [ud, h]; rfl
  · apply unpack_inj
    rw [unpack_step_pointer_sniping_dpi, unpack_step_pointer_sniping_dpi, us]
    conv_rhs => rw [ks]
    simp only [if_true, if_false, Bool.false_eq_true, Fields.mk.injEq, and_self, and_true,
      true_and]
    omega
  · apply unpack_inj
    rw [unpack_step_pointer_sniping_dpi, unpack_step_pointer_sniping_dpi, us]
    conv_rhs => rw [ks]
    simp only [if_true, if_false, Bool.false_eq_true, Fields.mk.injEq, and_self, and_true,
      true_and]
    omega
  · apply unpack_inj
    rw [unpack_iterate_sniping]
    conv_rhs => rw [ks]
    simp only [Fields.mk.injEq, and_self, and_true, true_and]
    omega
  · rw [us, h]; rfl
  · rw [us, h]; rfl

/-- C25 at a concrete input: index 15 steps forward to 0, index 0 steps backward to 15. -/
theorem C25_index_steps_witness :
    pointer_default_dpi (step_pointer_default_dpi (mk32 15) true {}).1 = 0
    ∧ pointer_default_dpi (step_pointer_default_dpi (mk32 0) false {}).1 = 15 :=
  ⟨(C25_index_steps_wrap_and_invert (mk32 15) {} {}).2.2.2.1 (by decide),
    (C25_index_steps_wrap_and_invert (mk32 0) {} {}).2.2.2.2.1 (by decide)⟩

/-- C26: `step_pointer_default_dpi` changes only `pointer_default_dpi` and
`step_pointer_sniping_dpi` changes only `pointer_sniping_dpi`, in either direction and
at every index, the wrap-around cases included: the other index, both encoder modes,
both flags and the padding bits keep their values, and in the raw word all bits above
(and, for the sniper index, below) the stepped field are the same as before, so no carry
or borrow leaves the field. -/
theorem C26_step_touches_one_field (c : spleeb_config_t) (forward : Bool) (s : State) :
    unpack (step_pointer_default_dpi c forward s).1
        = { unpack c with
            dpi := (pointer_default_dpi c + (if forward then 1 else 15)) % 16 }
    ∧ pointer_sniping_dpi (step_pointer_default_dpi c forward s).1 = pointer_sniping_dpi c
    ∧ enc_modes (step_pointer_default_dpi c forward s).1 0 = enc_modes c 0
    ∧ enc_modes (step_pointer_default_dpi c forward s).1 1 = enc_modes c 1
    ∧ is_dragscroll_enabled (step_pointer_default_dpi c forward s).1 = is_dragscroll_enabled c
    ∧ is_sniping_enabled (step_pointer_default_dpi c forward s).1 = is_sniping_enabled c
    ∧ (step_pointer_default_dpi c forward s).1.raw / 16 = c.raw / 16
    ∧ unpack (step_pointer_sniping_dpi c forward s).1
        = { unpack c with
            snipe := (pointer_sniping_dpi c + (if forward then 1 else 3)) % 4 }
    ∧ pointer_default_dpi (step_pointer_sniping_dpi c forward s).1 = pointer_default_dpi c
    ∧ enc_modes (step_pointer_sniping_dpi c forward s).1 0 = enc_modes c 0
    ∧ enc_modes (step_pointer_sniping_dpi c forward s).1 1 = enc_modes c 1
    ∧ is_dragscroll_enabled (step_pointer_sniping_dpi c forward s).1 = is_dragscroll_enabled c
    ∧ is_sniping_enabled (step_pointer_sniping_dpi c forward s).1 = is_sniping_enabled c
    ∧ (step_pointer_sniping_dpi c forward s).1.raw % 16 = c.raw % 16
    ∧ (step_pointer_sniping_dpi c forward s).1.raw / 64 = c.raw / 64 := by
  have hd := unpack_step_pointer_default_dpi c forward s
  have hs := unpack_step_pointer_sniping_dpi c forward s
  have rd := set_pointer_default_dpi_slices c
    ((pointer_default_dpi c : Int) + (if forward then 1 else -1))
  have rs := set_pointer_sniping_dpi_slices c
    ((pointer_sniping_dpi c : Int) + (if forward then 1 else -1))
  exact ⟨hd, congrArg Fields.snipe hd, congrArg Fields.enc0 hd, congrArg Fields.enc1 hd,
    congrArg Fields.drag hd, congrArg Fields.snp hd, rd.2,
    hs, congrArg Fields.dpi hs, congrArg Fields.enc0 hs, congrArg Fields.enc1 hs,
    congrArg Fields.drag hs, congrArg Fields.snp hs, rs.1, rs.2.2⟩

/-! ### Drag-scroll accumulator invariant -/

/-- One tick of a run, unfolded. -/
theorem feed_ticks_cons (s : State) (c : spleeb_config_t) (r : report_mouse_t)
    (ts : List (spleeb_config_t × report_mouse_t)) :
    feed_ticks s ((c, r) :: ts)
      = ((feed_ticks (pointing_device_task_spleeb r { s with g_spleeb_config := c }).2 ts).1,
          (c, (pointing_device_task_spleeb r { s with g_spleeb_config := c }).1)
            :: (feed_ticks
                (pointing_device_task_spleeb r { s with g_spleeb_config := c }).2 ts).2) :=
  rfl

/-- The sum over the drag-scroll ticks of a list that starts with a drag-scroll tick. -/
theorem drag_sum_cons_true (f : report_mouse_t → Int) (c : spleeb_config_t)
    (a : report_mouse_t) (l : List (spleeb_config_t × report_mouse_t))
    (h : is_dragscroll_enabled c = true) :
    ((((c, a) :: l).filter (fun o => is_dragscroll_enabled o.1)).map (fun o => f o.2)).sum
      = f a + ((l.filter (fun o => is_dragscroll_enabled o.1)).map (fun o => f o.2)).sum := by
  rw [List.filter_cons_of_pos (by exact h), List.map_cons, List.sum_cons]

/-- The sum over the drag-scroll ticks of a list that starts with another tick. -/
theorem drag_sum_cons_false (f : report_mouse_t → Int) (c : spleeb_config_t)
    (a : report_mouse_t) (l : List (spleeb_config_t × report_mouse_t))
    (h : is_dragscroll_enabled c = false) :
    ((((c, a) :: l).filter (fun o => is_dragscroll_enabled o.1)).map (fun o => f o.2)).sum
      = ((l.filter (fun o => is_dragscroll_enabled o.1)).map (fun o => f o.2)).sum := by
  rw [List.filter_cons_of_neg (by rw [h]; exact Bool.false_ne_true)]

/-- The drag-scroll accounting of a run of ticks that starts with both remainders below
64 in absolute value. -/
theorem feed_ticks_inv (ts : List (spleeb_config_t × report_mouse_t)) :
    ∀ s : State, (-64 < s.scroll_x ∧ s.scroll_x < 64) → (-64 < s.scroll_y ∧ s.scroll_y < 64) →
      (∀ t ∈ ts, (-128 ≤ t.2.x ∧ t.2.x ≤ 127) ∧ (-128 ≤ t.2.y ∧ t.2.y ≤ 127)) →
      (-64 < (feed_ticks s ts).1.scroll_x ∧ (feed_ticks s ts).1.scroll_x < 64)
      ∧ (-64 < (feed_ticks s ts).1.scroll_y ∧ (feed_ticks s ts).1.scroll_y < 64)
      ∧ (∀ o ∈ (feed_ticks s ts).2, is_dragscroll_enabled o.1 = true →
          (-2 ≤ o.2.h ∧ o.2.h ≤ 2) ∧ (-2 ≤ o.2.v ∧ o.2.v ≤ 2))
      ∧ 64 * (((feed_ticks s ts).2.filter (fun o => is_dragscroll_enabled o.1)).map
              (fun o => report_mouse_t.v o.2)).sum
            + (feed_ticks s ts).1.scroll_y
          = s.scroll_y + ((ts.filter (fun o => is_dragscroll_enabled o.1)).map
              (fun o => report_mouse_t.y o.2)).sum
      ∧ 64 * (((feed_ticks s ts).2.filter (fun o => is_dragscroll_enabled o.1)).map
              (fun o => report_mouse_t.h o.2)).sum
            + (feed_ticks s ts).1.scroll_x
          = s.scroll_x - ((ts.filter (fun o => is_dragscroll_enabled o.1)).map
              (fun o => report_mouse_t.x o.2)).sum := by
  induction ts with
  | nil =>
    intro s hx hy _
    simp [feed_ticks, hx, hy]
  | cons t ts ih =>
    intro s hx hy hr
    obtain ⟨c, r⟩ := t
    have hrt := hr (c, r) (List.mem_cons_self _ _)
    have hrest : ∀ q ∈ ts, (-128 ≤ q.2.x ∧ q.2.x ≤ 127) ∧ (-128 ≤ q.2.y ∧ q.2.y ≤ 127) :=
      fun q hq => hr q (List.mem_cons_of_mem _ hq)
    rw [feed_ticks_cons]
    cases hd : is_dragscroll_enabled c with
    | false =>
      have e : pointing_device_task_spleeb r { s with g_spleeb_config := c }
          = (r, { s with g_spleeb_config := c }) := by
        simp [pointing_device_task_spleeb, hd]
      rw [e]
      obtain ⟨h1, h2, h3, h4, h5⟩ := ih { s with g_spleeb_config := c } hx hy hrest
      refine ⟨h1, h2, ?_, ?_, ?_⟩
      · intro q hq hq1
        rcases List.mem_cons.1 hq with e2 | e2
        · rw [e2, hd] at hq1
          exact absurd hq1 Bool.false_ne_true
        · exact h3 q e2 hq1
      · rw [drag_sum_cons_false report_mouse_t.v c r _ hd,
          drag_sum_cons_false report_mouse_t.y c r _ hd]
        exact h4
      · rw [drag_sum_cons_false report_mouse_t.h c r _ hd,
          drag_sum_cons_false report_mouse_t.x c r _ hd]
        exact h5
    | true =>
      have tx := drag_tick_x r { s with g_spleeb_config := c } hd hx hrt.1
      have ty := drag_tick_y r { s with g_spleeb_config := c } hd hy hrt.2
      obtain ⟨h1, h2, h3, h4, h5⟩ :=
        ih (pointing_device_task_spleeb r { s with g_spleeb_config := c }).2
          ⟨tx.1, tx.2.1⟩ ⟨ty.1, ty.2.1⟩ hrest
      refine ⟨h1, h2, ?_, ?_, ?_⟩
      · intro q hq hq1
        rcases List.mem_cons.1 hq with e2 | e2
        · rw [e2]
          exact ⟨⟨tx.2.2.1, tx.2.2.2.1⟩, ⟨ty.2.2.1, ty.2.2.2.1⟩⟩
        · exact h3 q e2 hq1
      · rw [drag_sum_cons_true report_mouse_t.v c _ _ hd,
          drag_sum_cons_true report_mouse_t.y c r _ hd]
        have h6 := ty.2.2.2.2
        dsimp only at h6 h4 ⊢
        omega
      · rw [drag_sum_cons_true report_mouse_t.h c _ _ hd,
          drag_sum_cons_true report_mouse_t.x c r _ hd]
        have h6 := tx.2.2.2.2
        dsimp only at h6 h5 ⊢
        omega

/-- C27: starting from `scroll_x = scroll_y = 0`, after every sequence of ticks of
`pointing_device_task_spleeb` (with any configuration record at each tick) whose `x`
and `y` deltas are `int8_t` values, both accumulators are below 64 in absolute value,
every `h` and `v` emitted by a drag-scroll tick lies in -2..2, and over the drag-scroll
ticks `64 * (sum of v) + scroll_y` equals the sum of the `y` deltas while
`64 * (sum of h) + scroll_x` equals minus the sum of the `x` deltas. -/
theorem C27_dragscroll_accumulator_invariant (s : State)
    (ts : List (spleeb_config_t × report_mouse_t))
    (hx0 : s.scroll_x = 0) (hy0 : s.scroll_y = 0)
    (hr : ∀ t ∈ ts, (-128 ≤ t.2.x ∧ t.2.x ≤ 127) ∧ (-128 ≤ t.2.y ∧ t.2.y ≤ 127)) :
    (-64 < (feed_ticks s ts).1.scroll_x ∧ (feed_ticks s ts).1.scroll_x < 64)
    ∧ (-64 < (feed_ticks s ts).1.scroll_y ∧ (feed_ticks s ts).1.scroll_y < 64)
    ∧ (∀ o ∈ (feed_ticks s ts).2, is_dragscroll_enabled o.1 = true →
        (-2 ≤ o.2.h ∧ o.2.h ≤ 2) ∧ (-2 ≤ o.2.v ∧ o.2.v ≤ 2))
    ∧ 64 * (((feed_ticks s ts).2.filter (fun o => is_dragscroll_enabled o.1)).map
            (fun o => report_mouse_t.v o.2)).sum
          + (feed_ticks s ts).1.scroll_y
        = ((ts.filter (fun o => is_dragscroll_enabled o.1)).map
            (fun o => report_mouse_t.y o.2)).sum
    ∧ 64 * (((feed_ticks s ts).2.filter (fun o => is_dragscroll_enabled o.1)).map
            (fun o => report_mouse_t.h o.2)).sum
          + (feed_ticks s ts).1.scroll_x
        = -((ts.filter (fun o => is_dragscroll_enabled o.1)).map
            (fun o => report_mouse_t.x o.2)).sum := by
  obtain ⟨h1, h2, h3, h4, h5⟩ := feed_ticks_inv ts s (by omega) (by omega) hr
  refine ⟨h1, h2, h3, ?_, ?_⟩
  · omega
  · omega

/-- C27 at a concrete input: two drag-scroll ticks with (x, y) = (127, -128) and
(100, 50) around one tick with drag-scroll off leave both remainders below 64 in
absolute value, namely `scroll_x = -35` and `scroll_y = 50`. -/
theorem C27_dragscroll_accumulator_witness :
    (-64 < (feed_ticks {} [(mk32 16777216, { x := 127, y := -128 }),
        (mk32 0, { x := 9, y := 9 }), (mk32 16777216, { x := 100, y := 50 })]).1.scroll_x
      ∧ (feed_ticks {} [(mk32 16777216, { x := 127, y := -128 }),
        (mk32 0, { x := 9, y := 9 }), (mk32 16777216, { x := 100, y := 50 })]).1.scroll_x < 64)
    ∧ (feed_ticks {} [(mk32 16777216, { x := 127, y := -128 }),
        (mk32 0, { x := 9, y := 9 }), (mk32 16777216, { x := 100, y := 50 })]).1.scroll_x = -35
    ∧ (feed_ticks {} [(mk32 16777216, { x := 127, y := -128 }),
        (mk32 0, { x := 9, y := 9 }), (mk32 16777216, { x := 100, y := 50 })]).1.scroll_y
        = 50 :=
  ⟨(C27_dragscroll_accumulator_invariant {}
      [(mk32 16777216, { x := 127, y := -128 }), (mk32 0, { x := 9, y := 9 }),
        (mk32 16777216, { x := 100, y := 50 })] rfl rfl (by decide)).1,
    by decide, by decide⟩

end Spleeb
